import Mathlib

/-!
Verification of the hair-product catalog pipeline against its specification.

The Python sources under `src/` are shallowly embedded: pure string-processing
functions become Lean functions over `String` / `List Char`; the database
session becomes an explicit `RepoState`; wall-clock time (`datetime.now`) and
generated UUIDs become explicit parameters; fallible operations (a Python call
that raises) return `Except String α`.  Python floats are modelled as `ℚ`
(all constants compared in the code — 0.30, 0.80, 0.85, 0.90 — are exact in
both representations; they are written with `mkRat`, which evaluates inside
the kernel, rather than with decimal literals, which do not).
-/

set_option maxRecDepth 10000

namespace Haira

/-! ## Python string primitives -/

/-- Substring containment on char lists (Python `sub in s` for nonempty `sub`;
for `sub = []` it is also `true`, matching Python `"" in s`). -/
def listContains (pat : List Char) : List Char → Bool
  | [] => pat.isEmpty
  | c :: rest => pat.isPrefixOf (c :: rest) || listContains pat rest

/-- Python `sub in s`. -/
def pyContains (s sub : String) : Bool := listContains sub.data s.data

/-- Python truthiness of an optional string (`None` and `""` are falsy). -/
def truthyStr : Option String → Bool
  | none => false
  | some s => s ≠ ""

/-- Python truthiness of an optional list (`None` and `[]` are falsy). -/
def truthyList : Option (List String) → Bool
  | none => false
  | some l => l ≠ []

/-- Python `s.lower()` (ASCII case mapping). -/
def pyLower (s : String) : String := ⟨s.data.map Char.toLower⟩

/-- Python `s.strip()` on char lists: drop whitespace from both ends. -/
def stripList (s : List Char) : List Char :=
  (s.dropWhile Char.isWhitespace).rdropWhile Char.isWhitespace

/-- Python `s.strip()`. -/
def pyStrip (s : String) : String := ⟨stripList s.data⟩

/-- Python `s.split(sep)` on char lists (`sep` nonempty at every call site;
for `sep = []` the whole input is returned unsplit).  `fuel` is a structural
bound on the recursion (each step consumes at least one char), so the
function evaluates inside the kernel; `listSplitOn` supplies enough fuel. -/
def listSplitOnF (sep : List Char) : Nat → List Char → List (List Char)
  | 0, _ => [[]]
  | _ + 1, [] => [[]]
  | fuel + 1, c :: rest =>
    if sep ≠ [] && sep.isPrefixOf (c :: rest) then
      [] :: listSplitOnF sep fuel (rest.drop (sep.length - 1))
    else
      match listSplitOnF sep fuel rest with
      | [] => [[c]]
      | h :: t => (c :: h) :: t

def listSplitOn (sep : List Char) (s : List Char) : List (List Char) :=
  listSplitOnF sep s.length s

/-- Python `s.split(sep)`. -/
def pySplitOn (s sep : String) : List String :=
  (listSplitOn sep.data s.data).map (fun l => (⟨l⟩ : String))

/-- Split a char list at every char satisfying `p` (separators dropped,
empties kept). -/
def splitByPred (p : Char → Bool) (s : List Char) : List (List Char) :=
  match s with
  | [] => [[]]
  | c :: rest =>
    let tail := splitByPred p rest
    if p c then [] :: tail
    else
      match tail with
      | [] => [[c]]
      | h :: t => (c :: h) :: t

/-- Python `s.replace(pat, repl)` (all non-overlapping occurrences, left to
right; `pat` nonempty at every call site). -/
def listReplaceF (pat repl : List Char) : Nat → List Char → List Char
  | 0, _ => []
  | _ + 1, [] => []
  | fuel + 1, c :: rest =>
    if pat ≠ [] && pat.isPrefixOf (c :: rest) then
      repl ++ listReplaceF pat repl fuel (rest.drop (pat.length - 1))
    else
      c :: listReplaceF pat repl fuel rest

def listReplace (pat repl : List Char) (s : List Char) : List Char :=
  listReplaceF pat repl s.length s

/-- Python `s.replace(pat, repl)`. -/
def pyReplace (s pat repl : String) : String := ⟨listReplace pat.data repl.data s.data⟩

/-- Python `s.startswith(pre)`. -/
def pyStartsWith (s pre : String) : Bool := pre.data.isPrefixOf s.data

/-- Python `s.endswith(post)`. -/
def pyEndsWith (s post : String) : Bool := post.data.isSuffixOf s.data

lemma dropWhile_head_not {α : Type} (p : α → Bool) (l : List α)
    (hl : 0 < (l.dropWhile p).length) : p ((l.dropWhile p).get ⟨0, hl⟩) = false := by
  simpa using List.dropWhile_get_zero_not p l hl

/-- `stripList` is idempotent (needed because `validate_ingredient` re-strips
an already stripped item, exactly as the Python does). -/
lemma stripList_idem (s : List Char) : stripList (stripList s) = stripList s := by
  unfold stripList
  set p := Char.isWhitespace
  set A := s.dropWhile p with hA
  have h1 : (A.rdropWhile p).dropWhile p = A.rdropWhile p := by
    cases hR : A.rdropWhile p with
    | nil => simp
    | cons b bs =>
      have hpre : A.rdropWhile p <+: A := List.rdropWhile_prefix p A
      rw [hR] at hpre
      obtain ⟨t, ht⟩ := hpre
      have hh : A.head? = some b := by rw [← ht]; rfl
      have hfind : s.find? (fun x => !p x) = some b := by
        rw [List.find?_not_eq_head?_dropWhile, ← hA, hh]
      have hpb := List.find?_some hfind
      rw [List.dropWhile_cons_of_neg (by simpa using hpb)]
  rw [h1, List.rdropWhile_idempotent]

lemma pyStrip_idem (s : String) : pyStrip (pyStrip s) = pyStrip s := by
  unfold pyStrip
  exact congrArg String.mk (stripList_idem s.data)

/-- Python `s.split()` — split on whitespace runs, dropping empties. -/
def pySplitWs (s : String) : List String :=
  ((splitByPred Char.isWhitespace s.data).map (fun l => (⟨l⟩ : String))).filter
    (fun t => t ≠ "")

/-- Index (in chars) of the first occurrence of `pat` in `s`, Python `s.find(pat)`. -/
def findSub (pat : List Char) : List Char → Option Nat
  | [] => if pat.isEmpty then some 0 else none
  | c :: rest =>
    if pat.isPrefixOf (c :: rest) then some 0
    else (findSub pat rest).map (· + 1)

/-- Case-insensitive prefix test: the lowercased `pat` is a prefix of the
lowercased `s`. -/
def ciPrefixOf (pat s : List Char) : Bool :=
  (pat.map Char.toLower).isPrefixOf (s.map Char.toLower)

/-- Python `re.sub(re.escape(phrase), "", s, flags=IGNORECASE)`: remove all
(non-overlapping, left-to-right) case-insensitive occurrences of `phrase`. -/
def removeAllCIF (phrase : List Char) : Nat → List Char → List Char
  | 0, _ => []
  | _ + 1, [] => []
  | fuel + 1, c :: rest =>
    if phrase ≠ [] && ciPrefixOf phrase (c :: rest) then
      removeAllCIF phrase fuel (rest.drop (phrase.length - 1))
    else
      c :: removeAllCIF phrase fuel rest

def removeAllCI (phrase : List Char) (s : List Char) : List Char :=
  removeAllCIF phrase s.length s

/-- Split a char list at any of the given separator chars (Python
`re.split(r"[●•·]", text)` semantics: separators dropped, empties kept). -/
def splitOnAnyChar (seps : List Char) (s : List Char) : List (List Char) :=
  match s with
  | [] => [[]]
  | c :: rest =>
    let tail := splitOnAnyChar seps rest
    if seps.contains c then [] :: tail
    else
      match tail with
      | [] => [[c]]
      | h :: t => (c :: h) :: t

/-! ## `src/core/inci_validator.py` -/

def CUT_MARKERS : List String := [
  "modo de uso", "como usar", "how to use", "directions",
  "benefícios", "benefits", "indicação", "precauções", "warnings",
  "validade", "reg. ms", "sac:", "cnpj", "fabricante"]

def GARBAGE_PHRASES : List String := [
  "click here", "see more", "read more", "ver mais", "clique aqui",
  "saiba mais", "leia mais", "show more", "infamous", "known for",
  "commonly used", "is a type of", "can cause", "compare",
  "report error", "embed"]

def VERB_INDICATORS : List String := [
  "aplique", "aplicar", "massageie", "enxágue", "enxague",
  "use", "apply", "massage", "rinse", "wash", "lavar",
  "espalhe", "distribua", "deixe agir", "aguarde"]

/-- The heading words of `PRODUCT_HEADING_PATTERNS` (each source pattern is
`<word>\s*:`, matched with `re.match`, i.e. anchored at the start). -/
def PRODUCT_HEADING_WORDS : List String := [
  "shampoo", "condicionador", "conditioner",
  "máscara", "mascara", "mask",
  "creme", "leave-in", "óleo"]

structure INCIValidationResult where
  valid : Bool
  cleaned : List String := []
  rejection_reason : String := ""
  removed : List String := []
  deriving DecidableEq, Repr

/-- One truncation step of `clean_inci_text`: cut `text` at the first
case-insensitive occurrence of `marker`. -/
def cutAtMarker (text : String) (marker : String) : String :=
  match findSub marker.data (pyLower text).data with
  | some i => ⟨text.data.take i⟩
  | none => text

def clean_inci_text (raw : String) : String :=
  let text := CUT_MARKERS.foldl cutAtMarker raw
  let text := GARBAGE_PHRASES.foldl
    (fun t phrase => (⟨removeAllCI phrase.data t.data⟩ : String)) text
  pyStrip text

/-- `re.search(r"https?://", s, IGNORECASE)` — the regex is the literal
`http` + optional `s` + `://`. -/
def containsURLMarker (s : String) : Bool :=
  pyContains (pyLower s) "http://" || pyContains (pyLower s) "https://"

def validate_ingredient (ingredient : String) : Bool :=
  let s := pyStrip ingredient
  if s.length < 2 || 80 < s.length then false
  else if containsURLMarker s then false
  else if 8 < (pySplitWs s).length then false
  else if VERB_INDICATORS.any (fun verb => pyContains (pyLower s) verb)
      && 3 < (pySplitWs s).length then false
  else true

/-- `re.match(r"<word>\s*:", item)`: `item` starts with `word`, then
whitespace, then a colon. -/
def matchesHeading (word : String) (item : String) : Bool :=
  word.data.isPrefixOf item.data && colonAfterWs (item.data.drop word.length)
where
  colonAfterWs : List Char → Bool
    | [] => false
    | c :: r => if c = ':' then true else if c.isWhitespace then colonAfterWs r else false

/-- Consecutive gaps of the `aqua` anchor positions (`j`-th minus `j-1`-th). -/
def anchorGaps : List Nat → Bool
  | a :: b :: rest => (decide (1 < b - a)) || anchorGaps (b :: rest)
  | _ => false

def detect_concatenation (ingredients : List String) : Bool :=
  let lower_list := ingredients.map (fun i => pyStrip (pyLower i))
  let aqua_positions := (List.range lower_list.length).filter
    (fun i => ["aqua", "water", "aqua/water"].contains (lower_list.getD i ""))
  (2 ≤ aqua_positions.length && anchorGaps aqua_positions)
  || lower_list.any (fun item => PRODUCT_HEADING_WORDS.any (fun w => matchesHeading w item))

def detect_repetition (ingredients : List String) : Bool :=
  let normalized := ingredients.map (fun i => pyStrip (pyLower i))
  let n := normalized.length
  (((List.range (n / 2 + 1)).drop 3).any
    (fun k => normalized.take k == (normalized.drop k).take k))

/-- The dedup/acceptance loop of `validate_inci_list` (returns `(cleaned, removed)`). -/
def validateLoop : List String → List String → List String → List String →
    (List String × List String)
  | [], _, cleaned, removed => (cleaned, removed)
  | ing :: rest, seen, cleaned, removed =>
    let s := pyStrip ing
    if s = "" then validateLoop rest seen cleaned removed
    else
      let key := pyLower s
      if seen.contains key then validateLoop rest seen cleaned (removed ++ [s])
      else if !validate_ingredient s then validateLoop rest seen cleaned (removed ++ [s])
      else validateLoop rest (seen ++ [key]) (cleaned ++ [s]) removed

def validate_inci_list (ingredients : List String) : INCIValidationResult :=
  if detect_repetition ingredients then
    { valid := false, rejection_reason := "repetition_detected" }
  else if detect_concatenation ingredients then
    { valid := false, rejection_reason := "concat_detected" }
  else
    let (cleaned, removed) := validateLoop ingredients [] [] []
    if cleaned.length < 5 then
      { valid := false, cleaned := cleaned, removed := removed,
        rejection_reason :=
          "min_ingredients: only " ++ toString cleaned.length ++ " valid terms" }
    else
      { valid := true, cleaned := cleaned, removed := removed }

/-! ## `src/extraction/inci_extractor.py` -/

def splitIngredients (text : String) : List String :=
  let parts :=
    if pyContains text "●" || pyContains text "•" || pyContains text "·" then
      (splitOnAnyChar ['●', '•', '·'] text.data).map (fun l => (⟨l⟩ : String))
    else
      pySplitOn text ","
  (parts.map pyStrip).filter (fun p => p ≠ "")

def extract_and_validate_inci (raw_text : Option String) : INCIValidationResult :=
  match raw_text with
  | none => { valid := false, rejection_reason := "no_inci_text" }
  | some raw =>
    if pyStrip raw = "" then { valid := false, rejection_reason := "no_inci_text" }
    else
      let cleaned_text := clean_inci_text raw
      if cleaned_text = "" then { valid := false, rejection_reason := "empty_after_cleaning" }
      else validate_inci_list (splitIngredients cleaned_text)

/-! ## `src/core/models.py` -/

inductive QAStatus where
  | catalog_only
  | verified_inci
  | quarantined
  deriving DecidableEq, Repr

def QAStatus.value : QAStatus → String
  | .catalog_only => "catalog_only"
  | .verified_inci => "verified_inci"
  | .quarantined => "quarantined"

inductive GenderTarget where
  | men | women | unisex | kids | unknown
  deriving DecidableEq, Repr

def GenderTarget.value : GenderTarget → String
  | .men => "men"
  | .women => "women"
  | .unisex => "unisex"
  | .kids => "kids"
  | .unknown => "unknown"

inductive ExtractionMethod where
  | jsonld | html_selector | js_dom | llm_grounded | manual
  deriving DecidableEq, Repr

def ExtractionMethod.value : ExtractionMethod → String
  | .jsonld => "jsonld"
  | .html_selector => "html_selector"
  | .js_dom => "js_dom"
  | .llm_grounded => "llm_grounded"
  | .manual => "manual"

/-- A JSON object, used for `variants` / `product_labels` payloads that the
pipeline only passes through. -/
def JDict := List (String × String)
deriving instance DecidableEq, Repr for JDict

structure Evidence where
  field_name : String
  source_url : String
  evidence_locator : String
  raw_source_text : String
  extraction_method : ExtractionMethod
  extracted_at : Nat
  deriving DecidableEq, Repr

structure ProductExtraction where
  brand_slug : String
  product_name : String
  product_url : String
  image_url_main : Option String := none
  image_urls_gallery : List String := []
  gender_target : GenderTarget := .unknown
  hair_relevance_reason : String := ""
  product_type_raw : Option String := none
  product_type_normalized : Option String := none
  product_category : Option String := none
  inci_ingredients : Option (List String) := none
  description : Option String := none
  usage_instructions : Option String := none
  benefits_claims : Option (List String) := none
  size_volume : Option String := none
  price : Option ℚ := none
  currency : Option String := none
  line_collection : Option String := none
  variants : Option (List JDict) := none
  confidence : ℚ := 0
  extraction_method : Option String := none
  evidence : List Evidence := []
  extracted_at : Nat := 0
  deriving DecidableEq, Repr

structure QAResult where
  status : QAStatus
  passed : Bool
  checks_passed : List String := []
  checks_failed : List String := []
  rejection_reason : Option String := none
  deriving DecidableEq, Repr

/-! ## `urllib.parse.urlparse(url).hostname`

Model of the hostname extraction used by `_check_domain`: strip a leading
`scheme:` (letter followed by letters/digits/`+`/`-`/`.` before the first
colon), read the netloc only when the remainder starts with `//`, then drop
userinfo (after the last `@`), drop the port, and lowercase.  An absent
hostname becomes `""` (the code applies `or ""`). -/

def isSchemeChar (c : Char) : Bool :=
  c.isAlpha || c.isDigit || c = '+' || c = '-' || c = '.'

def stripScheme (s : List Char) : List Char :=
  let pre := s.takeWhile (fun c => c ≠ ':')
  if pre.length < s.length && pre ≠ [] && (pre.headD ' ').isAlpha
      && pre.all isSchemeChar then
    s.drop (pre.length + 1)
  else s

def pyHostname (url : String) : String :=
  let rest := stripScheme url.data
  if ['/', '/'].isPrefixOf rest then
    let netloc := (rest.drop 2).takeWhile (fun c => c ≠ '/' && c ≠ '?' && c ≠ '#')
    let hostinfo := (listSplitOn ['@'] netloc).getLastD []
    let host :=
      if hostinfo.headD ' ' = '[' then
        (hostinfo.drop 1).takeWhile (fun c => c ≠ ']')
      else hostinfo.takeWhile (fun c => c ≠ ':')
    pyLower ⟨host⟩
  else ""

/-! ## `src/core/qa_gate.py` -/

structure QAConfig where
  min_inci_terms : Nat := 5
  min_confidence : ℚ := mkRat 4 5
  deriving DecidableEq, Repr

def GARBAGE_NAMES : List String := [
  "404", "não encontrado", "não encontrada",
  "página não encontrada", "page not found",
  "produto indisponível", "product unavailable",
  "error", "erro"]

def check_domain (url : String) (allowed_domains : List String) : Bool :=
  let host := pyHostname url
  allowed_domains.any (fun d => host = d || pyEndsWith host ("." ++ d))

/-- Rendering of the low-confidence rejection message
`f"confidence {confidence} < {min_confidence}"` (the Python float repr is
modelled by the rational repr). -/
def confidenceReason (c m : ℚ) : String :=
  "confidence " ++ toString c ++ " < " ++ toString m

def run_product_qa (product : ProductExtraction) (allowed_domains : List String)
    (config : QAConfig := {}) : QAResult :=
  let name_lower := pyLower (pyStrip product.product_name)
  let nameGarbage := GARBAGE_NAMES.any (fun g => pyContains name_lower g)
  let domainOk := check_domain product.product_url allowed_domains
  let hasImage := truthyStr product.image_url_main
  let hairOk := product.hair_relevance_reason ≠ ""
  let passed := (if nameGarbage then [] else ["name_valid"])
    ++ (if domainOk then ["domain_valid"] else [])
    ++ (if hasImage then ["has_image"] else [])
    ++ (if hairOk then ["hair_relevant"] else [])
  let failed := (if nameGarbage then ["name_garbage"] else [])
    ++ (if domainOk then [] else ["domain_unofficial"])
    ++ (if hasImage then [] else ["no_image"])
    ++ (if hairOk then [] else ["no_hair_relevance"])
  if failed ≠ [] then
    { status := .quarantined, passed := false, checks_passed := passed,
      checks_failed := failed,
      rejection_reason := some (String.intercalate "; " failed) }
  else if !truthyList product.inci_ingredients then
    { status := .catalog_only, passed := true, checks_passed := passed }
  else
    let inci_result := validate_inci_list (product.inci_ingredients.getD [])
    if !inci_result.valid then
      { status := .quarantined, passed := false, checks_passed := passed,
        checks_failed := failed ++ ["inci_invalid:" ++ inci_result.rejection_reason],
        rejection_reason := some inci_result.rejection_reason }
    else if product.confidence < config.min_confidence then
      { status := .quarantined, passed := false,
        checks_passed := passed ++ ["inci_valid"],
        checks_failed := failed ++ ["low_confidence"],
        rejection_reason := some (confidenceReason product.confidence config.min_confidence) }
    else
      { status := .verified_inci, passed := true,
        checks_passed := passed ++ ["inci_valid", "confidence_ok"] }

/-! ## Spec-side restatement of the quality gate (§4.8 of the spec / claim C1) -/

/-- The Tier-1 checks as the spec words them: garbage marker in the product
name, URL host not equal to nor a subdomain of an allowed domain, missing
main image, empty hair-relevance reason; each failure contributes its code,
in this order. -/
def tier1FailedChecks (p : ProductExtraction) (domains : List String) : List String :=
  (if GARBAGE_NAMES.any (fun g => pyContains (pyLower (pyStrip p.product_name)) g)
    then ["name_garbage"] else [])
  ++ (if check_domain p.product_url domains then [] else ["domain_unofficial"])
  ++ (if truthyStr p.image_url_main then [] else ["no_image"])
  ++ (if p.hair_relevance_reason = "" then ["no_hair_relevance"] else [])

/-- The verdict (status and rejection reason) described by claim C1:
quarantined with the `"; "`-joined failed Tier-1 checks when any Tier-1 check
fails; otherwise `catalog_only` when `inci_ingredients` is absent (no
ingredient present); otherwise quarantined with the specific rejection code
when `validate_inci_list` rejects or `confidence < 0.80`; otherwise
`verified_inci`. -/
def qaVerdictSpec (p : ProductExtraction) (domains : List String) :
    QAStatus × Option String :=
  let failures := tier1FailedChecks p domains
  if failures ≠ [] then (.quarantined, some (String.intercalate "; " failures))
  else if p.inci_ingredients.getD [] = [] then (.catalog_only, none)
  else
    let v := validate_inci_list (p.inci_ingredients.getD [])
    if !v.valid then (.quarantined, some v.rejection_reason)
    else if p.confidence < mkRat 4 5 then
      (.quarantined, some (confidenceReason p.confidence (mkRat 4 5)))
    else (.verified_inci, none)

lemma truthyList_eq_false_iff (o : Option (List String)) :
    truthyList o = false ↔ o.getD [] = [] := by
  cases o <;> simp [truthyList]

/-- C1: for every `ProductExtraction` and allowed-domain list, `run_product_qa`
returns exactly the tiered verdict of the specification: quarantined with the
`"; "`-joined failed Tier-1 checks when any Tier-1 check fails; otherwise
`catalog_only` when no INCI ingredient is present; otherwise quarantined with
the validator's rejection code or the low-confidence reason; otherwise
`verified_inci`. -/
theorem c1_run_product_qa_matches_spec (p : ProductExtraction) (domains : List String) :
    ((run_product_qa p domains).status, (run_product_qa p domains).rejection_reason)
      = qaVerdictSpec p domains := by
  unfold run_product_qa qaVerdictSpec tier1FailedChecks
  cases hI : p.inci_ingredients with
  | none =>
    cases h1 : GARBAGE_NAMES.any (fun g => pyContains (pyLower (pyStrip p.product_name)) g) <;>
    cases h2 : check_domain p.product_url domains <;>
    cases h3 : truthyStr p.image_url_main <;>
    by_cases h4 : p.hair_relevance_reason = "" <;>
    (try simp only [h1, h2, h3]) <;> simp [h4, truthyList]
  | some l =>
    cases l with
    | nil =>
      cases h1 : GARBAGE_NAMES.any (fun g => pyContains (pyLower (pyStrip p.product_name)) g) <;>
      cases h2 : check_domain p.product_url domains <;>
      cases h3 : truthyStr p.image_url_main <;>
      by_cases h4 : p.hair_relevance_reason = "" <;>
      (try simp only [h1, h2, h3]) <;> simp [h4, truthyList]
    | cons ing rest =>
      simp only [Option.getD_some]
      cases h1 : GARBAGE_NAMES.any (fun g => pyContains (pyLower (pyStrip p.product_name)) g) <;>
      cases h2 : check_domain p.product_url domains <;>
      cases h3 : truthyStr p.image_url_main <;>
      by_cases h4 : p.hair_relevance_reason = "" <;>
      cases h6 : (validate_inci_list (ing :: rest)).valid <;>
      by_cases h7 : p.confidence < mkRat 4 5 <;>
      (try simp only [h1, h2, h3, h6]) <;> simp [h4, h7, truthyList]

/-! ## Claim C7 — per-item acceptance vs. list-level validity -/

lemma validate_ingredient_strip_ne_empty (i : String) (h : validate_ingredient i = true) :
    pyStrip i ≠ "" := by
  intro he
  unfold validate_ingredient at h
  rw [he] at h
  simp at h

/-- `validate_ingredient` only looks at the stripped item, so it is invariant
under stripping (the loop in `validate_inci_list` calls it on the already
stripped item). -/
lemma validate_ingredient_pyStrip (i : String) :
    validate_ingredient (pyStrip i) = validate_ingredient i := by
  unfold validate_ingredient
  rw [pyStrip_idem]

lemma validateLoop_all_fresh_valid (l : List String) :
    ∀ seen cleaned removed,
    (∀ i ∈ l, validate_ingredient i = true) →
    (l.map (fun i => pyLower (pyStrip i))).Nodup →
    (∀ i ∈ l, pyLower (pyStrip i) ∉ seen) →
    (validateLoop l seen cleaned removed).1.length = cleaned.length + l.length := by
  induction l with
  | nil => intro seen cleaned removed _ _ _; simp [validateLoop]
  | cons a rest ih =>
    intro seen cleaned removed hv hnd hseen
    have hva : validate_ingredient a = true := hv a (by simp)
    have ha2 : ¬ (pyStrip a = "") := validate_ingredient_strip_ne_empty a hva
    have hfresh : seen.contains (pyLower (pyStrip a)) = false := by
      simpa using hseen a (by simp)
    rw [List.map_cons, List.nodup_cons] at hnd
    have hstep : validateLoop (a :: rest) seen cleaned removed
        = validateLoop rest (seen ++ [pyLower (pyStrip a)]) (cleaned ++ [pyStrip a]) removed := by
      simp only [validateLoop, hfresh, validate_ingredient_pyStrip, hva]
      rw [if_neg ha2]
      simp
    rw [hstep]
    rw [ih (seen ++ [pyLower (pyStrip a)]) (cleaned ++ [pyStrip a]) removed
      (fun i hi => hv i (by simp [hi]))
      hnd.2
      (fun i hi => by
        have h1 : pyLower (pyStrip i) ∉ seen := hseen i (by simp [hi])
        have h2 : pyLower (pyStrip i) ≠ pyLower (pyStrip a) := by
          intro he
          exact hnd.1 (he ▸ List.mem_map_of_mem (fun x => pyLower (pyStrip x)) hi)
        simp [List.mem_append, h1, h2])]
    simp only [List.length_append, List.length_cons, List.length_nil]
    omega

/-- C7 counterexample: the list `["Aqua", "Glycerin", "Water", "Parfum",
"Citric Acid"]` has exactly 5 pairwise case-insensitively distinct items, each
passing per-item acceptance (length in [2, 80], no URL, at most 8 tokens, no
usage verb with more than 3 tokens), yet `validate_inci_list` rejects it: the
`aqua` and `water` anchors sit two positions apart, which triggers
`concat_detected`.  So the claim as stated is false. -/
theorem c7_counterexample :
    (["Aqua", "Glycerin", "Water", "Parfum", "Citric Acid"] : List String).length = 5
    ∧ ((["Aqua", "Glycerin", "Water", "Parfum", "Citric Acid"] : List String).map
        (fun i => pyLower (pyStrip i))).Nodup
    ∧ (["Aqua", "Glycerin", "Water", "Parfum", "Citric Acid"] : List String).all
        validate_ingredient = true
    ∧ (validate_inci_list ["Aqua", "Glycerin", "Water", "Parfum", "Citric Acid"]).valid
        = false
    ∧ (validate_inci_list ["Aqua", "Glycerin", "Water", "Parfum", "Citric Acid"]).rejection_reason
        = "concat_detected" := by
  refine ⟨rfl, ?_, ?_, ?_, ?_⟩ <;> decide

/-- C7 (amended): for every list of exactly 5 pairwise case-insensitively
distinct items, each of which passes per-item acceptance, **and which does not
trigger concatenation detection** (no pair of aqua/water anchors more than one
position apart and no product-heading item), `validate_inci_list` returns
`valid = true`. -/
theorem c7_amended (l : List String)
    (hlen : l.length = 5)
    (hvalid : ∀ i ∈ l, validate_ingredient i = true)
    (hdistinct : (l.map (fun i => pyLower (pyStrip i))).Nodup)
    (hconcat : detect_concatenation l = false) :
    (validate_inci_list l).valid = true := by
  have hrep : detect_repetition l = false := by
    unfold detect_repetition
    simp only [List.length_map, hlen]
    rfl
  have hloop := validateLoop_all_fresh_valid l [] [] [] hvalid hdistinct (by simp)
  unfold validate_inci_list
  rw [hrep, hconcat]
  simp only [Bool.false_eq_true, if_false]
  cases hveq : validateLoop l [] [] [] with
  | mk cleaned removed =>
    rw [hveq] at hloop
    simp only [List.length_nil, Nat.zero_add, hlen] at hloop
    simp [hloop]

/-- C7 witness: the amended theorem applied to a concrete 5-item list. -/
theorem c7_witness :
    (validate_inci_list ["Aqua", "Glycerin", "Parfum", "Cetearyl Alcohol", "Citric Acid"]).valid
      = true :=
  c7_amended ["Aqua", "Glycerin", "Parfum", "Cetearyl Alcohol", "Citric Acid"]
    (by decide) (by decide) (by decide) (by decide)

/-! ## A small engine for the `re` patterns the classifier uses

The classifier's built-in patterns (`KIT_PATTERNS`, `PRODUCT_INDICATORS`) and
the blueprint-supplied `product_url_pattern` go through `re.search`.  The
engine below supports the constructs those patterns use — literal characters,
`\d`, escaped literals, character classes of literal characters, `+`, and the
`$` anchor — and rejects malformed patterns (e.g. an unterminated character
class), exactly where `re.compile` raises `re.error`. -/

inductive RAtom where
  | lit (c : Char)
  | cls (cs : List Char)
  | digit
  | dollar
  deriving DecidableEq, Repr

def ratomMatches : RAtom → Char → Bool
  | .lit a, c => a = c
  | .cls cs, c => cs.contains c
  | .digit, c => c.isDigit
  | .dollar, _ => false

/-- Match a token sequence at the start of `s` (a token is an atom with a
`+`-repetition flag).  `fuel` structurally bounds the recursion — every step
shortens the token list or the input — so the match evaluates inside the
kernel; `rmatch` supplies enough fuel. -/
def rmatchF : Nat → List (RAtom × Bool) → List Char → Bool
  | 0, _, _ => false
  | _ + 1, [], _ => true
  | fuel + 1, (.dollar, _) :: rest, s => s.isEmpty && rmatchF fuel rest s
  | _ + 1, (_, false) :: _, [] => false
  | fuel + 1, (a, false) :: rest, c :: s => ratomMatches a c && rmatchF fuel rest s
  | _ + 1, (_, true) :: _, [] => false
  | fuel + 1, (a, true) :: rest, c :: s =>
    ratomMatches a c && (rmatchF fuel rest s || rmatchF fuel ((a, true) :: rest) s)

def rmatch (toks : List (RAtom × Bool)) (s : List Char) : Bool :=
  rmatchF (toks.length + s.length + 1) toks s

/-- Scan a character class after `[`: collect members up to the closing `]`
(a leading `]` is a literal member), `none` when the input ends first — the
`unterminated character set` error of `re.compile`. -/
def scanClass (acc : List Char) : List Char → Option (List Char × List Char)
  | [] => none
  | ']' :: rest =>
    if acc.isEmpty then scanClass (acc ++ [']']) rest
    else some (acc, rest)
  | c :: rest => scanClass (acc ++ [c]) rest

/-- Parse a pattern into tokens; `none` on a malformed pattern.  `fuel`
structurally bounds the recursion (each step consumes input); `rparse`
supplies enough fuel, so a `none` only ever means a malformed pattern. -/
def rparseF : Nat → List Char → Option (List (RAtom × Bool))
  | 0, _ => none
  | _ + 1, [] => some []
  | fuel + 1, '\\' :: rest =>
    match rest with
    | [] => none
    | c :: rest2 =>
      let a := if c = 'd' then RAtom.digit else RAtom.lit c
      match rest2 with
      | '+' :: rest3 => (rparseF fuel rest3).map (fun ts => (a, true) :: ts)
      | _ => (rparseF fuel rest2).map (fun ts => (a, false) :: ts)
  | fuel + 1, '[' :: rest =>
    match scanClass [] rest with
    | none => none
    | some (cs, rest2) =>
      match rest2 with
      | '+' :: rest3 => (rparseF fuel rest3).map (fun ts => (RAtom.cls cs, true) :: ts)
      | _ => (rparseF fuel rest2).map (fun ts => (RAtom.cls cs, false) :: ts)
  | fuel + 1, '$' :: rest => (rparseF fuel rest).map (fun ts => (RAtom.dollar, false) :: ts)
  | _ + 1, '+' :: _ => none
  | _ + 1, '*' :: _ => none
  | _ + 1, '?' :: _ => none
  | fuel + 1, c :: rest =>
    match rest with
    | '+' :: rest2 => (rparseF fuel rest2).map (fun ts => (RAtom.lit c, true) :: ts)
    | _ => (rparseF fuel rest).map (fun ts => (RAtom.lit c, false) :: ts)

def rparse (pattern : List Char) : Option (List (RAtom × Bool)) :=
  rparseF (pattern.length + 1) pattern

/-- `re.search` over the full input: try every start position (including the
end of the string, as `re.search` does). -/
def rsearchAt (toks : List (RAtom × Bool)) : List Char → Bool
  | [] => rmatch toks []
  | c :: r => rmatch toks (c :: r) || rsearchAt toks r

/-- `re.search(pattern, s)` for a pattern that may fail to compile. -/
def pysearch (pattern s : String) : Except String Bool :=
  match rparse pattern.data with
  | none => .error "re.error: invalid pattern"
  | some toks => .ok (rsearchAt toks s.data)

/-- `re.search(pattern, s)` for the classifier's built-in constant patterns
(all of which compile). -/
def reSearch (pattern s : String) : Bool :=
  match rparse pattern.data with
  | none => false
  | some toks => rsearchAt toks s.data

/-! ## `src/core/taxonomy.py` (the constants the classifier uses) -/

def HAIR_KEYWORDS : List String := [
  "shampoo", "condicionador", "conditioner", "máscara capilar", "mascara capilar",
  "hair mask", "tratamento capilar", "leave-in", "leave in", "óleo capilar",
  "oil hair", "tônico capilar", "tonico capilar", "scalp", "couro cabeludo",
  "antiqueda", "anti-queda", "queda capilar", "crescimento capilar",
  "cabelo", "cabelos", "hair", "capilar", "fios",
  "gel fixador", "mousse", "spray fixador", "pomada", "cera capilar",
  "wax", "clay", "pasta modeladora", "texturizador", "finalizador",
  "ampola", "sérum capilar", "serum capilar", "creme para pentear",
  "creme de pentear", "alisamento", "progressiva", "reconstrução",
  "hidratação capilar", "nutrição capilar", "reparação"]

def EXCLUDE_KEYWORDS : List String := [
  "corpo", "corporal", "body", "facial", "face", "rosto",
  "maquiagem", "makeup", "perfume", "fragrance", "fragrância",
  "unhas", "nail", "acessório", "accessory",
  "protetor solar", "sunscreen", "desodorante", "deodorant",
  "sabonete líquido", "sabonete corporal",
  "hidratante corporal", "body lotion", "body cream",
  "batom", "lipstick", "rímel", "mascara para cílios"]

def KIT_PATTERNS : List String := [
  "/kit[-_]", "/combo[-_]", "/bundle[-_]", "/set[-_]",
  "/kit/", "/combo/", "/bundle/"]

def MALE_TARGETING_KEYWORDS : List String := [
  "masculino", "masculina", "men", "for men", "man",
  "barber", "barbearia"]

def KIDS_KEYWORDS : List String := [
  "kids", "infantil", "criança", "children", "baby"]

def TYPE_MAP : List (List String × String) := [
  (["shampoo"], "shampoo"),
  (["condicionador", "conditioner"], "conditioner"),
  (["máscara", "mascara", "mask"], "mask"),
  (["leave-in", "leave in"], "leave_in"),
  (["óleo", "oleo", "oil"], "oil_serum"),
  (["sérum", "serum"], "oil_serum"),
  (["tônico", "tonico", "tonic"], "tonic"),
  (["pomada", "pomade"], "pomade"),
  (["gel"], "gel"),
  (["mousse"], "mousse"),
  (["spray"], "spray"),
  (["cera", "wax"], "wax"),
  (["argila", "clay"], "clay"),
  (["pasta", "paste"], "paste"),
  (["creme de pentear", "creme para pentear", "cream"], "cream"),
  (["ampola", "ampule"], "ampule"),
  (["finalizador", "finisher"], "finisher"),
  (["tratamento", "treatment", "reconstrução"], "treatment"),
  (["esfoliante", "exfoliant"], "exfoliant"),
  (["texturizador", "texturizer"], "texturizer")]

def normalize_product_type (raw_name : String) : Option String :=
  let lower := pyLower raw_name
  (TYPE_MAP.find? (fun kws => kws.1.any (fun kw => pyContains lower kw))).map
    (fun kws => kws.2)

def detect_gender_target (product_name url : String) : String :=
  let combined := pyLower (product_name ++ " " ++ url)
  if pyContains combined "unissex" || pyContains combined "unisex" then "unisex"
  else if KIDS_KEYWORDS.any (fun kw => pyContains combined kw) then "kids"
  else if MALE_TARGETING_KEYWORDS.any (fun kw => pyContains combined kw) then "men"
  else "unknown"

def is_hair_relevant_by_keywords (product_name url : String)
    (description : String := "") : Bool × String :=
  let combined := pyLower (product_name ++ " " ++ url ++ " " ++ description)
  if EXCLUDE_KEYWORDS.any (fun ekw => pyContains combined ekw) then (false, "")
  else
    match HAIR_KEYWORDS.find? (fun hkw => pyContains combined hkw) with
    | some hkw => (true, "keyword " ++ "\x27" ++ hkw ++ "\x27" ++ " found")
    | none => (false, "")

/-! ## `src/discovery/url_classifier.py` -/

inductive URLType where
  | product | category | kit | non_hair | other
  deriving DecidableEq, Repr

def CATEGORY_INDICATORS : List String := [
  "/cabelos/", "/cabelo/", "/hair/", "/produtos/", "/products/",
  "/collections/", "/categoria/", "/category/",
  "/shampoo/", "/condicionador/", "/tratamento/", "/finalizacao/",
  "/masculino/", "/men/",
  "/busca/", "/search/", "/busca?"]

def PRODUCT_INDICATORS : List String := [
  "-\\d+ml", "-\\d+g", "/p$", "/p/", "/p\\?",
  "-shampoo-", "-condicionador-", "-mascara-"]

def NON_PRODUCT_PATHS : List String := [
  "about", "sobre", "contato", "contact", "fale-conosco",
  "blog", "politica", "privacy", "terms", "termos",
  "institucional", "quem-somos", "faq", "ajuda", "help",
  "trabalhe-conosco", "careers", "imprensa", "press",
  "loja-fisica", "stores", "store-locator"]

/-- Python `lower.split("?")[0]`. -/
def classifierPath (lower : String) : String :=
  (pySplitOn lower "?").headD ""

/-- Python `lower.split("?")[1] if "?" in lower else ""`. -/
def classifierQuery (lower : String) : String :=
  if pyContains lower "?" then (pySplitOn lower "?").getD 1 "" else ""

/-- Python `s.split(sep, 1)[-1]`: everything after the first occurrence of
`sep` (the string itself when `sep` does not occur). -/
def splitOnceRest (s sep : String) : String :=
  match pySplitOn s sep with
  | [] => s
  | [x] => x
  | _ :: rest => String.intercalate sep rest

/-- The `path_segments` computation of `classify_url` (lines 57–60):
a filtered split of the whole lowered URL, replaced — whenever the URL starts
with `http` — by the pieces after the domain
(`path.split("//", 1)[-1].split("/")[1:]`). -/
def pathSegments (path : String) : List String :=
  let segs0 := (pySplitOn path "/").filter (fun piece =>
    (piece ≠ "" && !pyContains ((pySplitOn piece "?").headD "") ".")
    || pyEndsWith piece ".html")
  if pyStartsWith path "http" then
    (pySplitOn (splitOnceRest path "//") "/").drop 1
  else segs0

def rstripSlash (s : String) : String :=
  ⟨s.data.rdropWhile (fun c => c = '/')⟩

def countChar (s : String) (c : Char) : Nat := s.data.count c

/-- The rules of `classify_url` up to (and excluding) the product checks:
kit patterns, exclusion keywords, non-product info pages, category query
parameters and category indicators.  The first that fires wins. -/
def classifyPre (url : String) : Option URLType :=
  let lower := pyLower url
  let path := classifierPath lower
  let query := classifierQuery lower
  if KIT_PATTERNS.any (fun pat => reSearch pat lower) then some .kit
  else if EXCLUDE_KEYWORDS.any (fun kw =>
      pyContains lower ("/" ++ kw ++ "/") || pyEndsWith path ("/" ++ kw)) then
    some .non_hair
  else if (pathSegments path).any (fun seg =>
      NON_PRODUCT_PATHS.contains ((pySplitOn (pyReplace seg ".html" "") "?").headD "")) then
    some .other
  else if pyContains query "cgid=" || pyContains query "category=" then some .category
  else if CATEGORY_INDICATORS.any (fun indicator =>
      (pyContains lower indicator
        && pyEndsWith (rstripSlash lower) (rstripSlash indicator))
      || (pyContains lower indicator && countChar lower '/' ≤ 4
        && ((pySplitOn path "/").filter (fun s => s ≠ "")).length ≤ 4
        && !PRODUCT_INDICATORS.any (fun pat => reSearch pat lower))) then
    some .category
  else none

/-- The rules of `classify_url` after the blueprint-pattern check: built-in
product indicators, then the hair-keyword heuristic, then `other`. -/
def classifyPost (url : String) : URLType :=
  let lower := pyLower url
  let path := classifierPath lower
  if PRODUCT_INDICATORS.any (fun pat => reSearch pat lower) then .product
  else if (HAIR_KEYWORDS.take 20).any (fun kw =>
      pyContains lower (pyReplace kw " " "-") || pyContains lower (pyReplace kw " " "")) then
    let segments := ((pySplitOn path "/").drop 3).filter (fun s => s ≠ "")
    if 2 ≤ segments.length then .product
    else if segments ≠ [] && 3 ≤ (pySplitOn (segments.headD "") "-").length then .product
    else .category
  else .other

/-- `classify_url(url, product_url_pattern)`.  The only step that can raise is
`re.search(product_url_pattern, lower)` on a supplied (truthy) pattern. -/
def classify_url (url : String) (product_url_pattern : Option String) :
    Except String URLType :=
  match classifyPre url with
  | some t => .ok t
  | none =>
    match product_url_pattern with
    | some pat =>
      if pat ≠ "" then
        match pysearch pat (pyLower url) with
        | .error e => .error e
        | .ok true => .ok .product
        | .ok false => .ok (classifyPost url)
      else .ok (classifyPost url)
    | none => .ok (classifyPost url)

/-- `classify_url(url)` with no blueprint pattern, as the coverage engine
calls it — a total function. -/
def classifyNoPattern (url : String) : URLType :=
  match classifyPre url with
  | some t => t
  | none => classifyPost url

lemma classify_url_none_eq (url : String) :
    classify_url url none = .ok (classifyNoPattern url) := by
  unfold classify_url classifyNoPattern
  cases classifyPre url <;> rfl

/-- C6 counterexample: `classify_url` is not total over malformed
blueprint-supplied patterns — with `product_url_pattern = "["` (an
unterminated character set) the call reaches `re.search` and raises
`re.error` instead of returning a `URLType`. -/
theorem c6_counterexample :
    classify_url "https://example.com/xyz" (some "[")
      = Except.error "re.error: invalid pattern" := rfl

/-- C6 (amended): `classify_url` is total — returning one of the five
`URLType` values, with `other` when no rule matches — whenever the supplied
`product_url_pattern` is absent, empty, or a well-formed regex; a malformed
pattern raises `re.error` instead. -/
theorem c6_amended (url : String) (pat : Option String)
    (hpat : pat = none ∨ ∃ p, pat = some p ∧ (p = "" ∨ (rparse p.data).isSome = true)) :
    (∃ t : URLType, classify_url url pat = Except.ok t)
    ∧ (classifyPre url = none →
       PRODUCT_INDICATORS.any (fun q => reSearch q (pyLower url)) = false →
       (HAIR_KEYWORDS.take 20).any (fun kw =>
         pyContains (pyLower url) (pyReplace kw " " "-")
         || pyContains (pyLower url) (pyReplace kw " " "")) = false →
       classify_url url none = Except.ok URLType.other) := by
  constructor
  · unfold classify_url
    cases hpre : classifyPre url with
    | some t => exact ⟨t, rfl⟩
    | none =>
      rcases hpat with rfl | ⟨p, rfl, hp⟩
      · exact ⟨classifyPost url, rfl⟩
      · by_cases hpe : p = ""
        · refine ⟨classifyPost url, ?_⟩
          simp [hpe]
        · rcases hp with hp | hsome
          · exact absurd hp hpe
          · obtain ⟨toks, htoks⟩ := Option.isSome_iff_exists.mp hsome
            refine ⟨if rsearchAt toks (pyLower url).data then .product else classifyPost url, ?_⟩
            dsimp only
            rw [if_pos hpe]
            unfold pysearch
            rw [htoks]
            dsimp only
            cases rsearchAt toks (pyLower url).data <;> rfl
  · intro hpre hprod hhair
    rw [classify_url_none_eq]
    unfold classifyNoPattern
    rw [hpre]
    unfold classifyPost
    simp only [hprod, hhair]
    simp

/-- C6 witness: the amended theorem at concrete inputs — a well-formed
pattern yields a value, and a URL matching no rule classifies as `other`. -/
theorem c6_witness :
    (∃ t : URLType, classify_url "https://example.com/xyz" (some "xyz") = Except.ok t)
    ∧ classify_url "https://example.com/" none = Except.ok URLType.other :=
  ⟨(c6_amended "https://example.com/xyz" (some "xyz")
      (Or.inr ⟨"xyz", rfl, Or.inr (by decide)⟩)).1,
   (c6_amended "https://example.com/" none (Or.inl rfl)).2
      (by decide) (by decide) (by decide)⟩

/-! ## `src/extraction/deterministic.py`

The extractor's DOM queries (BeautifulSoup) are abstracted into a `Dom`
oracle: `jsonld` is the result of `extract_jsonld` (the first embedded
`@type=Product` block), `selText sel` the stripped text of
`soup.select_one(sel)` (with `some ""` for an element whose text is empty),
`selImageSrc sel` the `src`/`data-src` attribute of a selected element,
`tabInci` the result of `_extract_inci_by_tab_labels`, and `ogImage` the
`content` of the `og:image` meta tag.  The body of
`extract_product_deterministic` — the strategy chain, field filling and
evidence bookkeeping — is embedded line by line over that oracle. -/

inductive ImageVal where
  | str (s : String)
  | list (l : List String)
  deriving DecidableEq, Repr

inductive OffersVal where
  | missing
  | notDict
  | dict (price : Option ℚ) (priceCurrency : Option String)
  deriving DecidableEq, Repr

structure JsonLdProduct where
  name : Option String := none
  image : Option ImageVal := none
  description : Option String := none
  offers : OffersVal := .missing
  deriving DecidableEq, Repr

structure Dom where
  jsonld : Option JsonLdProduct := none
  selText : String → Option String := fun _ => none
  selImageSrc : String → Option (Option String) := fun _ => none
  tabInci : Option (String × String) := none
  ogImage : Option String := none

structure SelResult where
  name : Option String := none
  inci_raw : Option String := none
  image : Option String := none
  inci_selector : Option String := none
  name_selector : Option String := none
  deriving DecidableEq, Repr

/-- The per-field selector loop of `extract_by_selectors`: first selector
whose element exists and has nonempty stripped text wins. -/
def firstSelHit (dom : Dom) : List String → Option (String × String)
  | [] => none
  | sel :: rest =>
    match dom.selText sel with
    | some t => if t ≠ "" then some (t, sel) else firstSelHit dom rest
    | none => firstSelHit dom rest

/-- The image selector loop: first selected element with a truthy
`src`/`data-src` wins. -/
def firstImageHit (dom : Dom) : List String → Option String
  | [] => none
  | sel :: rest =>
    match dom.selImageSrc sel with
    | some (some src) => if src ≠ "" then some src else firstImageHit dom rest
    | some none => firstImageHit dom rest
    | none => firstImageHit dom rest

def extract_by_selectors (dom : Dom)
    (inci_selectors name_selectors image_selectors : Option (List String)) :
    SelResult :=
  let nameHit := match name_selectors with
    | some sels => firstSelHit dom sels
    | none => none
  let inciHit := match inci_selectors with
    | some sels => firstSelHit dom sels
    | none => none
  let inciHit := match inciHit with
    | some hit => some hit
    | none =>
      match dom.tabInci with
      | some (t, sel) => if t ≠ "" then some (t, sel) else none
      | none => none
  let image := match image_selectors with
    | some sels => firstImageHit dom sels
    | none => none
  { name := nameHit.map (fun h => h.1), name_selector := nameHit.map (fun h => h.2),
    inci_raw := inciHit.map (fun h => h.1), inci_selector := inciHit.map (fun h => h.2),
    image := image }

structure DetResult where
  product_name : Option String := none
  image_url_main : Option String := none
  inci_raw : Option String := none
  description : Option String := none
  price : Option ℚ := none
  currency : Option String := none
  evidence : List Evidence := []
  extraction_method : Option String := none
  deriving DecidableEq, Repr

/-- `src/extraction/evidence_tracker.py` — `raw_source_text` truncated to
2000 chars, `extracted_at` is the explicit clock. -/
def create_evidence (field_name source_url evidence_locator raw_source_text : String)
    (method : ExtractionMethod) (now : Nat) : Evidence :=
  { field_name := field_name, source_url := source_url,
    evidence_locator := evidence_locator,
    raw_source_text := ⟨raw_source_text.data.take 2000⟩,
    extraction_method := method, extracted_at := now }

def DEFAULT_NAME_SELECTORS : List String := ["h1.product-name", "h1", ".product-title"]

def DEFAULT_INCI_SELECTORS : List String := [
  ".product-ingredients p", ".product-ingredients",
  "#composicao", "#ingredientes",
  "[data-tab=\x27ingredientes\x27]"]

/-- JSON-LD name fill (`if jsonld.get("name")`). -/
def detStepJsonldName (r : DetResult) (j : JsonLdProduct) (url : String) (now : Nat) :
    DetResult :=
  if truthyStr j.name then
    { r with
      product_name := j.name,
      evidence := r.evidence ++ [create_evidence "product_name" url
        "json-ld @type=Product .name" (j.name.getD "") .jsonld now] }
  else r

/-- JSON-LD image fill (`if jsonld.get("image")`, first entry when a list). -/
def detStepJsonldImage (r : DetResult) (j : JsonLdProduct) (url : String) (now : Nat) :
    DetResult :=
  match j.image with
  | some (.str im) =>
    if im ≠ "" then
      { r with
        image_url_main := some im,
        evidence := r.evidence ++ [create_evidence "image_url_main" url
          "json-ld @type=Product .image" im .jsonld now] }
    else r
  | some (.list (im :: _)) =>
    { r with
      image_url_main := some im,
      evidence := r.evidence ++ [create_evidence "image_url_main" url
        "json-ld @type=Product .image" im .jsonld now] }
  | some (.list []) => r
  | none => r

/-- JSON-LD description fill (no evidence is emitted here). -/
def detStepJsonldDesc (r : DetResult) (j : JsonLdProduct) : DetResult :=
  if truthyStr j.description then { r with description := j.description } else r

/-- JSON-LD offers fill (`offers.price` / `offers.priceCurrency`, only when
`offers` is a dict with a truthy price; no evidence is emitted here). -/
def detStepJsonldOffers (r : DetResult) (j : JsonLdProduct) : DetResult :=
  match j.offers with
  | .dict (some pr) cur =>
    if pr ≠ 0 then
      { r with
        price := some pr,
        currency := some (cur.getD "BRL") }
    else r
  | _ => r

/-- Strategy 1 of `extract_product_deterministic`: the JSON-LD block. -/
def detAfterJsonld (dom : Dom) (url : String) (now : Nat) : DetResult :=
  match dom.jsonld with
  | none => {}
  | some j =>
    let r := detStepJsonldName {} j url now
    let r := detStepJsonldImage r j url now
    let r := detStepJsonldDesc r j
    let r := detStepJsonldOffers r j
    { r with extraction_method := some "jsonld" }

/-- Selector name fill (`if not result["product_name"] and sel_result["name"]`). -/
def detStepSelName (r : DetResult) (sel : SelResult) (url : String) (now : Nat) :
    DetResult :=
  if !truthyStr r.product_name && truthyStr sel.name then
    { r with
      product_name := sel.name,
      evidence := r.evidence ++ [create_evidence "product_name" url
        (sel.name_selector.getD "") (sel.name.getD "") .html_selector now] }
  else r

/-- Selector INCI fill (`if sel_result["inci_raw"]`; raw text truncated to 500
chars in the evidence; sets `extraction_method` when still unset). -/
def detStepSelInci (r : DetResult) (sel : SelResult) (url : String) (now : Nat) :
    DetResult :=
  if truthyStr sel.inci_raw then
    let r2 :=
      { r with
        inci_raw := sel.inci_raw,
        evidence := r.evidence ++ [create_evidence "inci_ingredients" url
          (sel.inci_selector.getD "")
          ⟨(sel.inci_raw.getD "").data.take 500⟩ .html_selector now] }
    if !truthyStr r2.extraction_method then { r2 with extraction_method := some "html_selector" }
    else r2
  else r

/-- Selector image fill (no evidence is emitted here). -/
def detStepSelImage (r : DetResult) (sel : SelResult) : DetResult :=
  if !truthyStr r.image_url_main && truthyStr sel.image then
    { r with image_url_main := sel.image }
  else r

/-- Strategy 4: the `og:image` meta fallback (no evidence is emitted here). -/
def detStepOgImage (r : DetResult) (dom : Dom) : DetResult :=
  if !truthyStr r.image_url_main then
    match dom.ogImage with
    | some c => if c ≠ "" then { r with image_url_main := some c } else r
    | none => r
  else r

/-- Strategies 2–4 of `extract_product_deterministic`: blueprint/default CSS
selectors (with the tab-label fallback inside `extract_by_selectors`), then
the meta-tag image fallback; each fills only still-unset fields. -/
def detApplySelectors (r0 : DetResult) (dom : Dom) (url : String)
    (inci_selectors name_selectors : Option (List String)) (now : Nat) : DetResult :=
  let defaultNameSels := match name_selectors with
    | some l => if l ≠ [] then l else DEFAULT_NAME_SELECTORS
    | none => DEFAULT_NAME_SELECTORS
  let defaultInciSels := match inci_selectors with
    | some l => if l ≠ [] then l else DEFAULT_INCI_SELECTORS
    | none => DEFAULT_INCI_SELECTORS
  let sel_result := extract_by_selectors dom
    (some defaultInciSels)
    (if !truthyStr r0.product_name then some defaultNameSels else none)
    (if !truthyStr r0.image_url_main then some [".product-image", "img.product-img"] else none)
  detStepOgImage
    (detStepSelImage (detStepSelInci (detStepSelName r0 sel_result url now) sel_result url now)
      sel_result)
    dom

def extract_product_deterministic (dom : Dom) (url : String)
    (inci_selectors name_selectors : Option (List String)) (now : Nat) : DetResult :=
  detApplySelectors (detAfterJsonld dom url now) dom url inci_selectors name_selectors now

/-! ## Claim C3 — evidence coverage of populated fields -/

def allowedEvidenceField (e : Evidence) : Bool :=
  ["product_name", "image_url_main", "inci_ingredients"].contains e.field_name

/-- The evidence invariant the extractor actually maintains. -/
def detInv (r : DetResult) : Prop :=
  r.evidence.all allowedEvidenceField = true
  ∧ (truthyStr r.product_name = true → ∃ e ∈ r.evidence, e.field_name = "product_name")
  ∧ (truthyStr r.inci_raw = true → ∃ e ∈ r.evidence, e.field_name = "inci_ingredients")

lemma detInv_empty : detInv {} := by
  refine ⟨rfl, ?_, ?_⟩ <;> simp [truthyStr]

lemma detInv_stepJsonldName (r : DetResult) (j : JsonLdProduct) (url : String) (now : Nat)
    (h : detInv r) : detInv (detStepJsonldName r j url now) := by
  obtain ⟨h1, h2, h3⟩ := h
  unfold detStepJsonldName
  split_ifs with hc
  · refine ⟨?_, ?_, ?_⟩
    · simp [List.all_append, h1, allowedEvidenceField, create_evidence]
    · intro _
      refine ⟨create_evidence "product_name" url "json-ld @type=Product .name"
        (j.name.getD "") .jsonld now, ?_, rfl⟩
      simp
    · intro hi
      obtain ⟨e, he, hf⟩ := h3 hi
      exact ⟨e, by simp [he], hf⟩
  · exact ⟨h1, h2, h3⟩

lemma detInv_stepJsonldImage (r : DetResult) (j : JsonLdProduct) (url : String) (now : Nat)
    (h : detInv r) : detInv (detStepJsonldImage r j url now) := by
  obtain ⟨h1, h2, h3⟩ := h
  unfold detStepJsonldImage
  have hkeep : ∀ (im : String), detInv
      { r with
        image_url_main := some im,
        evidence := r.evidence ++ [create_evidence "image_url_main" url
          "json-ld @type=Product .image" im .jsonld now] } := by
    intro im
    refine ⟨?_, ?_, ?_⟩
    · simp [List.all_append, h1, allowedEvidenceField, create_evidence]
    · intro hp
      obtain ⟨e, he, hf⟩ := h2 hp
      exact ⟨e, by simp [he], hf⟩
    · intro hi
      obtain ⟨e, he, hf⟩ := h3 hi
      exact ⟨e, by simp [he], hf⟩
  match j.image with
  | some (.str im) =>
    dsimp only
    split_ifs
    · exact hkeep im
    · exact ⟨h1, h2, h3⟩
  | some (.list (im :: _)) => exact hkeep im
  | some (.list []) => exact ⟨h1, h2, h3⟩
  | none => exact ⟨h1, h2, h3⟩

lemma detInv_stepJsonldDesc (r : DetResult) (j : JsonLdProduct)
    (h : detInv r) : detInv (detStepJsonldDesc r j) := by
  unfold detStepJsonldDesc
  split_ifs <;> exact h

lemma detInv_stepJsonldOffers (r : DetResult) (j : JsonLdProduct)
    (h : detInv r) : detInv (detStepJsonldOffers r j) := by
  unfold detStepJsonldOffers
  match j.offers with
  | .dict (some pr) cur =>
    dsimp only
    split_ifs <;> exact h
  | .dict none cur => exact h
  | .missing => exact h
  | .notDict => exact h

lemma detInv_setMethod (r : DetResult) (m : Option String)
    (h : detInv r) : detInv { r with extraction_method := m } := h

lemma detInv_afterJsonld (dom : Dom) (url : String) (now : Nat) :
    detInv (detAfterJsonld dom url now) := by
  unfold detAfterJsonld
  match dom.jsonld with
  | none => exact detInv_empty
  | some j =>
    exact detInv_setMethod _ _
      (detInv_stepJsonldOffers _ _
        (detInv_stepJsonldDesc _ _
          (detInv_stepJsonldImage _ _ _ _
            (detInv_stepJsonldName _ _ _ _ detInv_empty))))

lemma detInv_stepSelName (r : DetResult) (sel : SelResult) (url : String) (now : Nat)
    (h : detInv r) : detInv (detStepSelName r sel url now) := by
  obtain ⟨h1, h2, h3⟩ := h
  unfold detStepSelName
  split_ifs with hc
  · refine ⟨?_, ?_, ?_⟩
    · simp [List.all_append, h1, allowedEvidenceField, create_evidence]
    · intro _
      refine ⟨create_evidence "product_name" url (sel.name_selector.getD "")
        (sel.name.getD "") .html_selector now, ?_, rfl⟩
      simp
    · intro hi
      obtain ⟨e, he, hf⟩ := h3 hi
      exact ⟨e, by simp [he], hf⟩
  · exact ⟨h1, h2, h3⟩

lemma detInv_stepSelInci (r : DetResult) (sel : SelResult) (url : String) (now : Nat)
    (h : detInv r) : detInv (detStepSelInci r sel url now) := by
  obtain ⟨h1, h2, h3⟩ := h
  unfold detStepSelInci
  have hkeep : detInv
      { r with
        inci_raw := sel.inci_raw,
        evidence := r.evidence ++ [create_evidence "inci_ingredients" url
          (sel.inci_selector.getD "")
          ⟨(sel.inci_raw.getD "").data.take 500⟩ .html_selector now] } := by
    refine ⟨?_, ?_, ?_⟩
    · simp [List.all_append, h1, allowedEvidenceField, create_evidence]
    · intro hp
      obtain ⟨e, he, hf⟩ := h2 hp
      exact ⟨e, by simp [he], hf⟩
    · intro _
      refine ⟨create_evidence "inci_ingredients" url (sel.inci_selector.getD "")
        ⟨(sel.inci_raw.getD "").data.take 500⟩ .html_selector now, ?_, rfl⟩
      simp
  split_ifs with hc
  · dsimp only
    split_ifs <;> exact hkeep
  · exact ⟨h1, h2, h3⟩

lemma detInv_stepSelImage (r : DetResult) (sel : SelResult)
    (h : detInv r) : detInv (detStepSelImage r sel) := by
  unfold detStepSelImage
  split_ifs <;> exact h

lemma detInv_stepOgImage (r : DetResult) (dom : Dom)
    (h : detInv r) : detInv (detStepOgImage r dom) := by
  unfold detStepOgImage
  split_ifs with hc
  · match dom.ogImage with
    | some c =>
      dsimp only
      split_ifs <;> exact h
    | none => exact h
  · exact h

lemma detStepJsonldName_image (r : DetResult) (j : JsonLdProduct)
    (url : String) (now : Nat) :
    (detStepJsonldName r j url now).image_url_main = r.image_url_main := by
  unfold detStepJsonldName
  split_ifs <;> rfl

lemma detStepJsonldDesc_pres (r : DetResult) (j : JsonLdProduct) :
    (detStepJsonldDesc r j).image_url_main = r.image_url_main
    ∧ (detStepJsonldDesc r j).evidence = r.evidence := by
  unfold detStepJsonldDesc
  split_ifs <;> exact ⟨rfl, rfl⟩

lemma detStepJsonldOffers_pres (r : DetResult) (j : JsonLdProduct) :
    (detStepJsonldOffers r j).image_url_main = r.image_url_main
    ∧ (detStepJsonldOffers r j).evidence = r.evidence := by
  unfold detStepJsonldOffers
  cases j.offers with
  | missing => exact ⟨rfl, rfl⟩
  | notDict => exact ⟨rfl, rfl⟩
  | dict p cur =>
    cases p with
    | none => exact ⟨rfl, rfl⟩
    | some pr =>
      dsimp only
      split_ifs <;> exact ⟨rfl, rfl⟩

/-- The JSON-LD image step either leaves image and evidence alone, or sets
the image and appends exactly its evidence entry. -/
lemma detStepJsonldImage_cases (r : DetResult) (j : JsonLdProduct)
    (url : String) (now : Nat) :
    ((detStepJsonldImage r j url now).image_url_main = r.image_url_main
      ∧ (detStepJsonldImage r j url now).evidence = r.evidence)
    ∨ (∃ im, (detStepJsonldImage r j url now).image_url_main = some im
        ∧ (detStepJsonldImage r j url now).evidence = r.evidence
            ++ [create_evidence "image_url_main" url
                  "json-ld @type=Product .image" im .jsonld now]) := by
  unfold detStepJsonldImage
  cases j.image with
  | none => exact Or.inl ⟨rfl, rfl⟩
  | some v =>
    cases v with
    | str im =>
      dsimp only
      split_ifs with h
      · exact Or.inr ⟨im, rfl, rfl⟩
      · exact Or.inl ⟨rfl, rfl⟩
    | list l =>
      cases l with
      | nil => exact Or.inl ⟨rfl, rfl⟩
      | cons im rest => exact Or.inr ⟨im, rfl, rfl⟩

/-- After the JSON-LD stage, a truthy image has a matching evidence entry
(only `detStepJsonldImage` can have set it, and it appends one). -/
lemma detAfterJsonld_image_evidence (dom : Dom) (url : String) (now : Nat) :
    truthyStr (detAfterJsonld dom url now).image_url_main = true →
    ∃ e ∈ (detAfterJsonld dom url now).evidence,
      e.field_name = "image_url_main" := by
  unfold detAfterJsonld
  cases dom.jsonld with
  | none =>
    intro h
    dsimp only [truthyStr] at h
    exact Bool.noConfusion h
  | some j =>
    dsimp only
    rcases detStepJsonldImage_cases (detStepJsonldName {} j url now) j url now with
      ⟨hi, he⟩ | ⟨im, hi, he⟩
    · intro h
      rw [show ({ detStepJsonldOffers (detStepJsonldDesc
              (detStepJsonldImage (detStepJsonldName {} j url now) j url now) j) j with
              extraction_method := some "jsonld" } : DetResult).image_url_main
            = (detStepJsonldImage (detStepJsonldName {} j url now) j url now).image_url_main from
            (detStepJsonldOffers_pres _ j).1.trans (detStepJsonldDesc_pres _ j).1,
          hi, detStepJsonldName_image] at h
      exact absurd h (by decide)
    · intro h
      refine ⟨create_evidence "image_url_main" url
        "json-ld @type=Product .image" im .jsonld now, ?_, rfl⟩
      rw [show ({ detStepJsonldOffers (detStepJsonldDesc
              (detStepJsonldImage (detStepJsonldName {} j url now) j url now) j) j with
              extraction_method := some "jsonld" } : DetResult).evidence
            = (detStepJsonldImage (detStepJsonldName {} j url now) j url now).evidence from
            (detStepJsonldOffers_pres _ j).2.trans (detStepJsonldDesc_pres _ j).2,
        he]
      simp

lemma detStepSelName_ev (r : DetResult) (s : SelResult) (url : String) (now : Nat) :
    ∃ t, (detStepSelName r s url now).evidence = r.evidence ++ t
      ∧ ∀ e ∈ t, e.field_name ≠ "image_url_main" := by
  unfold detStepSelName
  split_ifs with h
  · refine ⟨[create_evidence "product_name" url (s.name_selector.getD "")
      (s.name.getD "") .html_selector now], rfl, ?_⟩
    intro e he
    rw [List.mem_singleton] at he
    subst he
    show "product_name" ≠ "image_url_main"
    decide
  · exact ⟨[], (List.append_nil _).symm, by intro e he; simp at he⟩

lemma detStepSelInci_ev (r : DetResult) (s : SelResult) (url : String) (now : Nat) :
    ∃ t, (detStepSelInci r s url now).evidence = r.evidence ++ t
      ∧ ∀ e ∈ t, e.field_name ≠ "image_url_main" := by
  unfold detStepSelInci
  dsimp only
  split_ifs with h h2
  · refine ⟨[create_evidence "inci_ingredients" url (s.inci_selector.getD "")
      ⟨(s.inci_raw.getD "").data.take 500⟩ .html_selector now], rfl, ?_⟩
    intro e he
    rw [List.mem_singleton] at he
    subst he
    show "inci_ingredients" ≠ "image_url_main"
    decide
  · refine ⟨[create_evidence "inci_ingredients" url (s.inci_selector.getD "")
      ⟨(s.inci_raw.getD "").data.take 500⟩ .html_selector now], rfl, ?_⟩
    intro e he
    rw [List.mem_singleton] at he
    subst he
    show "inci_ingredients" ≠ "image_url_main"
    decide
  · exact ⟨[], (List.append_nil _).symm, by intro e he; simp at he⟩

lemma detStepSelImage_ev (r : DetResult) (s : SelResult) :
    (detStepSelImage r s).evidence = r.evidence := by
  unfold detStepSelImage
  split_ifs <;> rfl

lemma detStepOgImage_ev (r : DetResult) (dom : Dom) :
    (detStepOgImage r dom).evidence = r.evidence := by
  unfold detStepOgImage
  split_ifs with h
  · cases dom.ogImage with
    | none => rfl
    | some c =>
      dsimp only
      split_ifs <;> rfl
  · rfl

/-- The selector stages only append evidence, and none of what they append
names `image_url_main`. -/
lemma detPipeline_tail (r0 : DetResult) (s : SelResult) (dom : Dom)
    (url : String) (now : Nat) :
    ∃ t, (detStepOgImage (detStepSelImage
            (detStepSelInci (detStepSelName r0 s url now) s url now) s) dom).evidence
        = r0.evidence ++ t
      ∧ ∀ e ∈ t, e.field_name ≠ "image_url_main" := by
  obtain ⟨t1, h1, ha1⟩ := detStepSelName_ev r0 s url now
  obtain ⟨t2, h2, ha2⟩ := detStepSelInci_ev (detStepSelName r0 s url now) s url now
  refine ⟨t1 ++ t2, ?_, ?_⟩
  · rw [detStepOgImage_ev, detStepSelImage_ev, h2, h1, List.append_assoc]
  · intro e he
    rcases List.mem_append.mp he with h | h
    · exact ha1 e h
    · exact ha2 e h

lemma detSelTail (r0 : DetResult) (dom : Dom) (url : String)
    (inci_selectors name_selectors : Option (List String)) (now : Nat) :
    ∃ t, (detApplySelectors r0 dom url inci_selectors name_selectors now).evidence
        = r0.evidence ++ t
      ∧ ∀ e ∈ t, e.field_name ≠ "image_url_main" := by
  unfold detApplySelectors
  exact detPipeline_tail r0 _ dom url now

set_option maxHeartbeats 1000000 in
/-- C3 counterexample: a page whose JSON-LD block carries a description.  The
extractor populates `description` (a non-identity field) but appends no
Evidence entry naming it — only `product_name` gets evidence — refuting the
claim that *every* populated non-identity field has a matching entry. -/
theorem c3_counterexample :
    (extract_product_deterministic
        { jsonld := some { name := some "Shampoo X", description := some "A great shampoo" } }
        "https://brand.com/p/1" none none 0).description = some "A great shampoo"
    ∧ ((extract_product_deterministic
        { jsonld := some { name := some "Shampoo X", description := some "A great shampoo" } }
        "https://brand.com/p/1" none none 0).evidence.all
        (fun e => e.field_name ≠ "description")) = true
    ∧ (extract_product_deterministic
        { jsonld := some { name := some "Shampoo X", description := some "A great shampoo" } }
        "https://brand.com/p/1" none none 0).evidence ≠ [] := by
  refine ⟨by decide, by decide, by decide⟩

/-- C3 (amended): the deterministic extractor emits Evidence only for
`product_name`, `image_url_main` and `inci_ingredients`; a populated (truthy)
`product_name` or `inci_raw` always has a matching entry; an image filled by
the JSON-LD strategy has one, and every `image_url_main` entry originates in
the JSON-LD stage (the CSS-selector and `og:image` fallbacks append none);
`description`, `price` and `currency` never have one. -/
theorem c3_amended (dom : Dom) (url : String)
    (inci_selectors name_selectors : Option (List String)) (now : Nat) :
    ((extract_product_deterministic dom url inci_selectors name_selectors now).evidence.all
      allowedEvidenceField = true)
    ∧ (truthyStr (extract_product_deterministic dom url inci_selectors name_selectors now).product_name = true →
       ∃ e ∈ (extract_product_deterministic dom url inci_selectors name_selectors now).evidence,
         e.field_name = "product_name")
    ∧ (truthyStr (extract_product_deterministic dom url inci_selectors name_selectors now).inci_raw = true →
       ∃ e ∈ (extract_product_deterministic dom url inci_selectors name_selectors now).evidence,
         e.field_name = "inci_ingredients")
    ∧ (truthyStr (detAfterJsonld dom url now).image_url_main = true →
       ∃ e ∈ (extract_product_deterministic dom url inci_selectors name_selectors now).evidence,
         e.field_name = "image_url_main")
    ∧ (∀ e ∈ (extract_product_deterministic dom url inci_selectors name_selectors now).evidence,
       e.field_name = "image_url_main" →
       e ∈ (detAfterJsonld dom url now).evidence) := by
  have hfinal : detInv (extract_product_deterministic dom url inci_selectors name_selectors now) := by
    unfold extract_product_deterministic detApplySelectors
    exact detInv_stepOgImage _ _
      (detInv_stepSelImage _ _
        (detInv_stepSelInci _ _ _ _
          (detInv_stepSelName _ _ _ _ (detInv_afterJsonld dom url now))))
  unfold detInv at hfinal
  obtain ⟨hA, hB, hC⟩ := hfinal
  refine ⟨hA, hB, hC, ?_, ?_⟩
  · intro h
    obtain ⟨e, he, hf⟩ := detAfterJsonld_image_evidence dom url now h
    obtain ⟨t, ht, -⟩ := detSelTail (detAfterJsonld dom url now) dom url
      inci_selectors name_selectors now
    refine ⟨e, ?_, hf⟩
    unfold extract_product_deterministic
    rw [ht]
    exact List.mem_append_left t he
  · intro e he hf
    obtain ⟨t, ht, htall⟩ := detSelTail (detAfterJsonld dom url now) dom url
      inci_selectors name_selectors now
    unfold extract_product_deterministic at he
    rw [ht] at he
    rcases List.mem_append.mp he with h | h
    · exact h
    · exact absurd hf (htall e h)

set_option maxHeartbeats 1000000 in
/-- C3 witness: the amended theorem at concrete pages — one whose name comes
from a CSS selector and whose INCI text comes from the tab-label fallback
(both populated fields carry matching evidence), and one whose image comes
from JSON-LD (its `image_url_main` entry exists and sits already in the
JSON-LD stage's evidence). -/
theorem c3_witness :
    (∃ e ∈ (extract_product_deterministic
        { selText := fun sel => if sel = "h1" then some "Named" else none,
          tabInci := some ("Aqua, Glycerin, Parfum, Cetearyl Alcohol, Citric Acid",
            "tab-label:ingredientes") }
        "https://brand.com/p/2" none none 0).evidence, e.field_name = "product_name")
    ∧ (∃ e ∈ (extract_product_deterministic
        { selText := fun sel => if sel = "h1" then some "Named" else none,
          tabInci := some ("Aqua, Glycerin, Parfum, Cetearyl Alcohol, Citric Acid",
            "tab-label:ingredientes") }
        "https://brand.com/p/2" none none 0).evidence, e.field_name = "inci_ingredients")
    ∧ (∃ e ∈ (extract_product_deterministic
        { jsonld := some { name := some "Shampoo X",
                           image := some (.str "https://brand.com/i.jpg") } }
        "https://brand.com/p/3" none none 0).evidence, e.field_name = "image_url_main") :=
  ⟨(c3_amended
      { selText := fun sel => if sel = "h1" then some "Named" else none,
        tabInci := some ("Aqua, Glycerin, Parfum, Cetearyl Alcohol, Citric Acid",
          "tab-label:ingredientes") }
      "https://brand.com/p/2" none none 0).2.1 (by decide),
   (c3_amended
      { selText := fun sel => if sel = "h1" then some "Named" else none,
        tabInci := some ("Aqua, Glycerin, Parfum, Cetearyl Alcohol, Citric Acid",
          "tab-label:ingredientes") }
      "https://brand.com/p/2" none none 0).2.2.1 (by decide),
   (c3_amended
      { jsonld := some { name := some "Shampoo X",
                         image := some (.str "https://brand.com/i.jpg") } }
      "https://brand.com/p/3" none none 0).2.2.2.1 (by decide)⟩

/-! ## `CoverageEngine._extract_product` — post-extraction assembly

The post-deterministic part of `_extract_product` (taxonomy fields, INCI
validation, confidence, record assembly).  The engine is modelled as
constructed without an LLM client (`llm_client=None`, as in every scenario
the claims describe), so the LLM-fallback branch guard at line 193 is false
and the branch is skipped. -/

/-- Modelled from the spec: `normalize_category` is imported by the coverage
engine from `src.core.taxonomy` but is defined nowhere under `src/`; the spec
only says taxonomy fills the `product_category` classification attribute.
Modelled as passing the normalized product type through; no claim depends on
its value. -/
def normalize_category (product_type : Option String) (product_name : String) :
    Option String :=
  product_type

/-- `GenderTarget(gender) if gender in [e.value for e in GenderTarget] else
GenderTarget.UNKNOWN`. -/
def parseGenderTarget (g : String) : GenderTarget :=
  if g = "men" then .men
  else if g = "women" then .women
  else if g = "unisex" then .unisex
  else if g = "kids" then .kids
  else .unknown

def buildExtraction (det : DetResult) (url brand_slug : String) (now : Nat) :
    Option ProductExtraction :=
  let product_name := det.product_name.getD ""
  if product_name = "" then none
  else
    let gender := detect_gender_target product_name url
    let product_type := normalize_product_type product_name
    let rel := is_hair_relevant_by_keywords product_name url
    let reason := if !rel.1 then "url_classified_as_product" else rel.2
    let inciConf : Option (List String) × ℚ :=
      if truthyStr det.inci_raw then
        let inci_result := extract_and_validate_inci det.inci_raw
        if inci_result.valid then (some inci_result.cleaned, mkRat 9 10) else (none, mkRat 3 10)
      else (none, 0.0)
    let product_category := normalize_category product_type product_name
    some {
      brand_slug := brand_slug,
      product_name := product_name,
      product_url := url,
      image_url_main := det.image_url_main,
      gender_target := parseGenderTarget gender,
      hair_relevance_reason := if reason = "" then "product_url" else reason,
      product_type_raw := some product_name,
      product_type_normalized := product_type,
      product_category := product_category,
      inci_ingredients := inciConf.1,
      description := det.description,
      price := det.price,
      currency := det.currency,
      confidence := inciConf.2,
      extraction_method := det.extraction_method,
      evidence := det.evidence,
      extracted_at := now }

/-! ## Claim C4 — the concatenated ingredient slot -/

def c4raw : String :=
  "Shampoo: Aqua, Glycerin, Parfum. Condicionador: Aqua, Cetearyl Alcohol, Dimethicone"

def c4det : DetResult :=
  { product_name := some "Shampoo Reparador",
    image_url_main := some "https://brand.com/img.jpg",
    inci_raw := some c4raw }

def c4url : String := "https://brand.com/shampoo-reparador"

def c4product : ProductExtraction :=
  { brand_slug := "brand",
    product_name := "Shampoo Reparador",
    product_url := c4url,
    image_url_main := some "https://brand.com/img.jpg",
    gender_target := .unknown,
    hair_relevance_reason := "keyword \x27shampoo\x27 found",
    product_type_raw := some "Shampoo Reparador",
    product_type_normalized := some "shampoo",
    product_category := some "shampoo",
    inci_ingredients := none,
    confidence := mkRat 3 10 }

set_option maxHeartbeats 2000000 in
/-- C4 counterexample: for the concatenated ingredient slot of the claim (all
Tier-1 checks passing), `validate_inci_list` does reject with
`concat_detected`, but the pipeline then stores `inci_ingredients = None`
(confidence 0.30), so one QA gate classifies the product `catalog_only` — it
is not persisted as `quarantined` with code `concat_detected`. -/
theorem c4_counterexample :
    (extract_and_validate_inci (some c4raw)).valid = false
    ∧ (extract_and_validate_inci (some c4raw)).rejection_reason = "concat_detected"
    ∧ buildExtraction c4det c4url "brand" 0 = some c4product
    ∧ (run_product_qa c4product ["brand.com"]).status = QAStatus.catalog_only
    ∧ (run_product_qa c4product ["brand.com"]).status ≠ QAStatus.quarantined := by
  refine ⟨by decide, by decide, by decide, by decide, by decide⟩

/-- C4 (amended): whenever the deterministic extractor found raw ingredient
text that `extract_and_validate_inci` rejects (e.g. by `concat_detected`),
`_extract_product` stores no INCI list and confidence 0.30, and — the Tier-1
checks passing — the quality gate classifies the persisted product
`catalog_only`, not `quarantined`.  (In the current code the product is in
fact never persisted at all: the extraction call raises `TypeError` first,
see C2.) -/
theorem c4_amended (det : DetResult) (url brand : String) (now : Nat)
    (domains : List String) (p : ProductExtraction)
    (hb : buildExtraction det url brand now = some p)
    (hraw : truthyStr det.inci_raw = true)
    (hinv : (extract_and_validate_inci det.inci_raw).valid = false)
    (ht1 : tier1FailedChecks p domains = []) :
    p.inci_ingredients = none ∧ p.confidence = mkRat 3 10
    ∧ (run_product_qa p domains).status = QAStatus.catalog_only
    ∧ (run_product_qa p domains).rejection_reason = none := by
  unfold buildExtraction at hb
  by_cases hn : det.product_name.getD "" = ""
  · rw [if_pos hn] at hb
    cases hb
  · rw [if_neg hn] at hb
    rw [hraw, if_pos rfl] at hb
    dsimp only at hb
    rw [hinv, if_neg Bool.false_ne_true] at hb
    have hxp := Option.some.inj hb
    have hIne : p.inci_ingredients = none := by rw [← hxp]
    have hConf : p.confidence = mkRat 3 10 := by rw [← hxp]
    refine ⟨hIne, hConf, ?_, ?_⟩ <;>
    · clear hb hxp hn hraw hinv
      unfold tier1FailedChecks at ht1
      unfold run_product_qa
      split_ifs at ht1 <;> simp_all [truthyList]

/-- C4 witness: the amended theorem at the claim's concrete slot. -/
theorem c4_witness :
    c4product.inci_ingredients = none ∧ c4product.confidence = mkRat 3 10
    ∧ (run_product_qa c4product ["brand.com"]).status = QAStatus.catalog_only
    ∧ (run_product_qa c4product ["brand.com"]).rejection_reason = none :=
  c4_amended c4det c4url "brand" 0 ["brand.com"] c4product
    (by decide) (by decide) (by decide) (by decide)

/-! ## `src/core/label_engine.py`

Keyword matching: each keyword is compiled to
`re.compile(r"\b" + re.escape(kw) + r"\b", re.IGNORECASE)` and run with
`.search`.  `IGNORECASE` is modelled by lowering pattern and text (ASCII);
`\b` is case-stable, so boundaries computed on the lowered text agree with
Python's. -/

/-- Python `\w` (ASCII part, which the keywords and examples use). -/
def isWordChar (c : Char) : Bool := c.isAlpha || c.isDigit || c = '_'

def isWordOpt : Option Char → Bool
  | none => false
  | some c => isWordChar c

/-- `\b` between the char before the position and the char at the position. -/
def wbBoundary (a b : Option Char) : Bool := isWordOpt a != isWordOpt b

/-- The char just before position `pre.length`, given the char before the
whole scan (`prev`). -/
def prevAt (prev : Option Char) (pre : List Char) : Option Char :=
  match pre.getLast? with
  | some c => some c
  | none => prev

/-- Match `\b kw \b` exactly at the start of `s` (with `prev` the char just
before `s`). -/
def wbMatchAt (kw : List Char) (prev : Option Char) (s : List Char) : Bool :=
  kw.isPrefixOf s
  && wbBoundary prev s.head?
  && wbBoundary (prevAt prev (s.take kw.length)) ((s.drop kw.length).head?)

def wbSearchAux (kw : List Char) (prev : Option Char) : List Char → Bool
  | [] => wbMatchAt kw prev []
  | c :: rest => wbMatchAt kw prev (c :: rest) || wbSearchAux kw (some c) rest

/-- `re.compile(r"\b"+re.escape(kw)+r"\b", IGNORECASE).search(text)`. -/
def wbSearch (kw text : String) : Bool :=
  wbSearchAux (pyLower kw).data none (pyLower text).data

structure LabelEvidence where
  field_name : String
  extraction_method : String
  raw_source_text : String
  evidence_locator : String
  deriving DecidableEq, Repr

structure LabelResult where
  detected : List String
  inferred : List String
  confidence : ℚ
  sources : List String
  manually_verified : Bool := false
  manually_overridden : Bool := false
  label_evidence : List LabelEvidence := []
  deriving DecidableEq, Repr

/-- Modelled from the spec: the label engine's keyword and prohibited-
ingredient lists live in `config/labels/*.yaml`, which is not under `src/`.
§4.6 fixes the seal set and the examples fix `vegan`'s keyword `vegan` and
`organic`'s keyword `bio` (`vegan` must not match `veganuary`, `bio` must not
match `biofilm`); the prohibited lists carry the spec's example entries. -/
structure LabelEngineCfg where
  seal_keywords : List (String × List String)
  silicones : List String
  low_poo_prohibited : List String
  no_poo_prohibited : List String

/-- Modelled from the spec: a default `seals.yaml` content (§4.6). -/
def DEFAULT_SEAL_KEYWORDS : List (String × List String) := [
  ("sulfate_free", ["sulfate free", "sulfate-free", "sem sulfato", "livre de sulfato"]),
  ("vegan", ["vegan", "vegano", "vegana"]),
  ("silicone_free", ["silicone free", "sem silicone"]),
  ("organic", ["organic", "orgânico", "organico", "bio"]),
  ("natural", ["natural"]),
  ("low_poo", ["low poo", "low-poo"]),
  ("no_poo", ["no poo", "no-poo"]),
  ("cruelty_free", ["cruelty free", "cruelty-free", "não testado em animais"]),
  ("paraben_free", ["paraben free", "sem parabenos"]),
  ("petrolatum_free", ["petrolatum free", "sem petrolatos"]),
  ("dye_free", ["dye free", "sem corantes"])]

/-- Modelled from the spec: the silicone / harsh-surfactant lists (§4.6). -/
def defaultLabelCfg : LabelEngineCfg :=
  { seal_keywords := DEFAULT_SEAL_KEYWORDS,
    silicones := ["dimethicone", "amodimethicone", "cyclomethicone", "cyclopentasiloxane"],
    low_poo_prohibited :=
      ["sodium lauryl sulfate", "sodium laureth sulfate", "ammonium lauryl sulfate"],
    no_poo_prohibited :=
      ["sodium lauryl sulfate", "sodium laureth sulfate", "ammonium lauryl sulfate",
       "sodium coco sulfate"] }

def PARABEN_INDICATORS : List String := [
  "methylparaben", "ethylparaben", "propylparaben", "butylparaben",
  "isobutylparaben", "isopropylparaben", "benzylparaben",
  "sodium methylparaben", "sodium propylparaben", "sodium butylparaben",
  "calcium paraben", "potassium paraben"]

def PETROLATUM_INDICATORS : List String := [
  "petrolatum", "paraffinum liquidum", "mineral oil", "cera microcristallina",
  "microcrystalline wax", "ceresin", "ozokerite", "paraffin",
  "petroleum jelly", "vaseline"]

def DYE_INDICATORS : List String := [
  "ci 1", "ci 2", "ci 4", "ci 5", "ci 6", "ci 7",
  "fd&c", "d&c",
  "red no.", "yellow no.", "blue no.", "green no.",
  "red dye", "yellow dye", "blue dye",
  "tartrazine", "amaranth", "erythrosine", "brilliant blue"]

/-- `LabelEngine._build_text_fields`. -/
def buildTextFields (description product_name : Option String)
    (benefits_claims : Option (List String)) (usage_instructions : Option String) :
    List (String × String) :=
  (description.map (fun d => ("description", d))).toList
  ++ (product_name.map (fun n => ("product_name", n))).toList
  ++ (benefits_claims.map (fun b => ("benefits_claims", String.intercalate " " b))).toList
  ++ (usage_instructions.map (fun u => ("usage_instructions", u))).toList

/-- Method 1, per seal: scan fields in order, keywords in order; the first
match wins (`break`s in the source). -/
def detectSealText (keywords : List String) :
    List (String × String) → Option (String × String)
  | [] => none
  | (fname, text) :: rest =>
    match keywords.find? (fun kw => wbSearch kw text) with
    | some kw => some (kw, fname)
    | none => detectSealText keywords rest

/-- Method 2, per seal: scan the image texts in order. -/
def detectSealImage (keywords : List String) : List String → Option (String × String)
  | [] => none
  | img :: rest =>
    match keywords.find? (fun kw => wbSearch kw img) with
    | some kw => some (kw, img)
    | none => detectSealImage keywords rest

/-- `LabelEngine._has_prohibited`. -/
def hasProhibited (inci_lower prohibited : List String) : Bool :=
  inci_lower.any (fun ingredient => prohibited.any (fun name => pyContains ingredient name))

/-- The `\d{4,5}\b` tail of the CI-number pattern after optional whitespace. -/
def ciDigitsOk (s : List Char) : Bool :=
  let ds := s.takeWhile (fun c => c.isDigit)
  (ds.length = 4 || ds.length = 5) && !isWordOpt ((s.drop ds.length).head?)

def ciAfterWs : List Char → Bool
  | [] => false
  | c :: r => if c.isWhitespace then ciAfterWs r else ciDigitsOk (c :: r)

/-- `re.search(r"\bci\s*\d{4,5}\b", ingredient)` hand-compiled (the input is
already lowercased by the caller). -/
def hasCIPatternAux (prev : Option Char) : List Char → Bool
  | [] => false
  | 'c' :: 'i' :: rest =>
    (wbBoundary prev (some 'c') && ciAfterWs rest) || hasCIPatternAux (some 'c') ('i' :: rest)
  | c :: rest => hasCIPatternAux (some c) rest

def hasCIPattern (ingredient : String) : Bool := hasCIPatternAux none ingredient.data

/-- `LabelEngine._has_dye`. -/
def hasDye (inci_lower : List String) : Bool :=
  inci_lower.any (fun ingredient =>
    DYE_INDICATORS.any (fun indicator => pyContains ingredient indicator)
    || hasCIPattern ingredient)

/-- `LabelEngine._compute_confidence`. -/
def computeLabelConfidence (detected inferred : List String) : ℚ :=
  if detected ≠ [] && inferred ≠ [] then mkRat 9 10
  else if detected ≠ [] then mkRat 4 5
  else if inferred ≠ [] then mkRat 1 2
  else 0

/-- `LabelEngine.detect`. -/
def labelDetect (cfg : LabelEngineCfg)
    (description : Option String := none) (product_name : Option String := none)
    (benefits_claims : Option (List String) := none)
    (usage_instructions : Option String := none)
    (inci_ingredients : Option (List String) := none)
    (image_texts : Option (List String) := none) : LabelResult :=
  let text_fields := buildTextFields description product_name benefits_claims usage_instructions
  -- Method 1: keyword matching over text fields
  let m1 := cfg.seal_keywords.filterMap (fun sp =>
    (detectSealText sp.2 text_fields).map (fun hit => (sp.1, hit.1, hit.2)))
  let detected := m1.map (fun x => x.1)
  let sources := if m1 ≠ [] then ["official_text"] else []
  let ev1 := m1.map (fun x =>
    ({ field_name := "label:" ++ x.1, extraction_method := "text_keyword",
       raw_source_text := x.2.1, evidence_locator := x.2.2 } : LabelEvidence))
  -- Method 2: image element scanning
  let m2 := if truthyList image_texts then
      cfg.seal_keywords.filterMap (fun sp =>
        if detected.contains sp.1 then none
        else (detectSealImage sp.2 (image_texts.getD [])).map (fun hit => (sp.1, hit.1, hit.2)))
    else []
  let detected := detected ++ m2.map (fun x => x.1)
  let sources := sources ++ (if m2 ≠ [] then ["html_img_element"] else [])
  let ev2 := m2.map (fun x =>
    ({ field_name := "label:" ++ x.1, extraction_method := "html_img_element",
       raw_source_text := x.2.1 ++ " (in: " ++ (⟨x.2.2.data.take 100⟩ : String) ++ ")",
       evidence_locator := "img_alt_title_filename" } : LabelEvidence))
  -- Method 3: INCI inference (`if inci_ingredients is not None`)
  let inferredEv : List String × List LabelEvidence :=
    match inci_ingredients with
    | none => ([], [])
    | some inci =>
      let inci_lower := inci.map pyLower
      let has_silicone := hasProhibited inci_lower cfg.silicones
      let has_low_poo_prohibited := hasProhibited inci_lower cfg.low_poo_prohibited
      let has_no_poo_prohibited := hasProhibited inci_lower cfg.no_poo_prohibited
      let has_paraben := hasProhibited inci_lower PARABEN_INDICATORS
      let has_petrolatum := hasProhibited inci_lower PETROLATUM_INDICATORS
      let has_dye := hasDye inci_lower
      let infer := fun (cond : Bool) (sealName rawText : String) =>
        if cond && !detected.contains sealName then
          ([sealName],
           [({ field_name := "label:" ++ sealName,
               extraction_method := "inci_inference",
               raw_source_text := rawText,
               evidence_locator := "inci_ingredients" } : LabelEvidence)])
        else (([] : List String), ([] : List LabelEvidence))
      let s1 := infer (!has_silicone) "silicone_free" "no silicone found in INCI list"
      let s2 := infer (!has_low_poo_prohibited) "sulfate_free" "no harsh sulfates found in INCI list"
      let s3 := infer (!has_paraben) "paraben_free" "no parabens found in INCI list"
      let s4 := infer (!has_petrolatum) "petrolatum_free"
        "no petrolatum/petroleum derivatives found in INCI list"
      let s5 := infer (!has_dye) "dye_free" "no synthetic dyes/colorants found in INCI list"
      let s6 := infer (!has_low_poo_prohibited) "low_poo" "no harsh sulfates found in INCI list"
      let s7 := infer (!has_no_poo_prohibited && !has_silicone) "no_poo"
        "no prohibited surfactants or silicones in INCI list"
      (s1.1 ++ s2.1 ++ s3.1 ++ s4.1 ++ s5.1 ++ s6.1 ++ s7.1,
       s1.2 ++ s2.2 ++ s3.2 ++ s4.2 ++ s5.2 ++ s6.2 ++ s7.2)
  let inferred := inferredEv.1
  let sources := sources ++ (if inferred ≠ [] then ["inci_analysis"] else [])
  { detected := detected,
    inferred := inferred,
    confidence := computeLabelConfidence detected inferred,
    sources := sources,
    manually_verified := false,
    manually_overridden := false,
    label_evidence := ev1 ++ ev2 ++ inferredEv.2 }

/-! ## Claim C8 — word-boundary keyword matching -/

lemma prevAt_none (pre : List Char) : prevAt none pre = pre.getLast? := by
  unfold prevAt
  cases pre.getLast? <;> rfl

lemma prevAt_cons (prev : Option Char) (c : Char) (pre : List Char) :
    prevAt prev (c :: pre) = prevAt (some c) pre := by
  cases pre with
  | nil => rfl
  | cons p ps =>
    unfold prevAt
    rw [List.getLast?_cons_cons, List.getLast?_eq_getLast (p :: ps) (by simp)]

lemma prevAt_eq_some (prev : Option Char) (pre : List Char) (g : Char)
    (h : pre.getLast? = some g) : prevAt prev pre = some g := by
  unfold prevAt
  rw [h]

lemma wbMatchAt_iff (kw : List Char) (hk : kw ≠ [])
    (hh : isWordOpt kw.head? = true) (hl : isWordOpt kw.getLast? = true)
    (prev : Option Char) (s : List Char) :
    wbMatchAt kw prev s = true ↔
      ∃ post, s = kw ++ post ∧ isWordOpt prev = false ∧ isWordOpt post.head? = false := by
  obtain ⟨k0, ks, rfl⟩ : ∃ k0 ks, kw = k0 :: ks := by
    cases kw with
    | nil => exact absurd rfl hk
    | cons k0 ks => exact ⟨k0, ks, rfl⟩
  unfold wbMatchAt
  constructor
  · intro h
    rw [Bool.and_eq_true, Bool.and_eq_true] at h
    obtain ⟨⟨hpre, hb1⟩, hb2⟩ := h
    obtain ⟨post, rfl⟩ : ∃ post, s = (k0 :: ks) ++ post := by
      obtain ⟨t, ht⟩ := List.isPrefixOf_iff_prefix.mp hpre
      exact ⟨t, ht.symm⟩
    refine ⟨post, rfl, ?_, ?_⟩
    · simp only [List.cons_append, List.head?_cons] at hb1
      simp only [isWordOpt] at hh ⊢
      unfold wbBoundary at hb1
      simp only [List.head?_cons, isWordOpt] at hb1
      rw [show isWordChar k0 = true from by simpa [isWordOpt] using hh] at hb1
      simpa using hb1
    · rw [List.take_left, List.drop_left] at hb2
      obtain ⟨g, hg⟩ : ∃ g, (k0 :: ks).getLast? = some g :=
        ⟨_, List.getLast?_eq_getLast _ (by simp)⟩
      rw [prevAt_eq_some prev _ g hg] at hb2
      unfold wbBoundary at hb2
      rw [hg] at hl
      rw [hl] at hb2
      cases hpost : isWordOpt post.head? with
      | false => rfl
      | true => rw [hpost] at hb2; exact absurd hb2 (by decide)
  · rintro ⟨post, rfl, hb1, hb2⟩
    rw [Bool.and_eq_true, Bool.and_eq_true]
    refine ⟨⟨?_, ?_⟩, ?_⟩
    · exact List.isPrefixOf_iff_prefix.mpr ⟨post, rfl⟩
    · unfold wbBoundary
      simp only [List.cons_append, List.head?_cons, isWordOpt]
      rw [show isWordChar k0 = true from by simpa [isWordOpt] using hh]
      simp [isWordOpt] at hb1 ⊢
      cases prev with
      | none => simp
      | some p => simpa [isWordOpt] using hb1
    · rw [List.take_left, List.drop_left]
      obtain ⟨g, hg⟩ : ∃ g, (k0 :: ks).getLast? = some g :=
        ⟨_, List.getLast?_eq_getLast _ (by simp)⟩
      rw [prevAt_eq_some prev _ g hg]
      unfold wbBoundary
      rw [hg] at hl
      rw [hl, hb2]
      rfl

lemma wbSearchAux_iff (kw : List Char) (hk : kw ≠ [])
    (hh : isWordOpt kw.head? = true) (hl : isWordOpt kw.getLast? = true) :
    ∀ (s : List Char) (prev : Option Char),
      wbSearchAux kw prev s = true ↔
        ∃ pre post, s = pre ++ kw ++ post
          ∧ isWordOpt (prevAt prev pre) = false
          ∧ isWordOpt post.head? = false := by
  intro s
  induction s with
  | nil =>
    intro prev
    constructor
    · intro h
      exfalso
      unfold wbSearchAux wbMatchAt at h
      cases kw with
      | nil => exact hk rfl
      | cons k0 ks => simp [List.isPrefixOf] at h
    · rintro ⟨pre, post, heq, -, -⟩
      have := heq.symm
      simp only [List.append_assoc, List.append_eq_nil] at this
      exact absurd this.2.1 hk
  | cons c rest ih =>
    intro prev
    have hstep : wbSearchAux kw prev (c :: rest)
        = (wbMatchAt kw prev (c :: rest) || wbSearchAux kw (some c) rest) := rfl
    rw [hstep, Bool.or_eq_true, ih (some c), wbMatchAt_iff kw hk hh hl prev (c :: rest)]
    constructor
    · rintro (⟨post, heq, hb1, hb2⟩ | ⟨pre, post, heq, hb1, hb2⟩)
      · exact ⟨[], post, by simpa using heq, by simpa [prevAt] using hb1, hb2⟩
      · exact ⟨c :: pre, post, by simp [heq], by rwa [prevAt_cons], hb2⟩
    · rintro ⟨pre, post, heq, hb1, hb2⟩
      cases pre with
      | nil =>
        left
        exact ⟨post, by simpa using heq, by simpa [prevAt] using hb1, hb2⟩
      | cons p ps =>
        right
        have hpc : p = c ∧ rest = ps ++ kw ++ post := by
          have := heq
          simp only [List.cons_append, List.append_assoc] at this
          exact ⟨(List.cons.injEq _ _ _ _ ▸ this).1.symm,
            by simpa [List.append_assoc] using (List.cons.injEq _ _ _ _ ▸ this).2⟩
        refine ⟨ps, post, hpc.2, ?_, hb2⟩
        rw [← prevAt_cons prev c ps]
        rw [← hpc.1]
        exact hb1

/-- The spec's notion of a whole-word (word-boundary) occurrence: the keyword
appears in the text (case-insensitively) with no word character adjacent on
either side. -/
def wholeWordOccurrence (kw text : String) : Prop :=
  ∃ pre post, (pyLower text).data = pre ++ (pyLower kw).data ++ post
    ∧ isWordOpt pre.getLast? = false
    ∧ isWordOpt post.head? = false

set_option maxHeartbeats 1000000 in
/-- C8: seal keyword matching has word-boundary semantics — a keyword (made
of word characters) matches a text field iff it occurs as a whole word — and
on the spec's examples: `vegan` is not detected in "Join veganuary", is
detected in "A vegan product", and `organic` is not detected in "Protects
against probiotic biofilm buildup". -/
theorem c8_word_boundary_matching :
    (∀ kw text : String, (pyLower kw).data ≠ [] →
       isWordOpt (pyLower kw).data.head? = true →
       isWordOpt (pyLower kw).data.getLast? = true →
       (wbSearch kw text = true ↔ wholeWordOccurrence kw text))
    ∧ "vegan" ∉ (labelDetect defaultLabelCfg (some "Join veganuary")).detected
    ∧ "vegan" ∈ (labelDetect defaultLabelCfg (some "A vegan product")).detected
    ∧ "organic" ∉ (labelDetect defaultLabelCfg
        (some "Protects against probiotic biofilm buildup")).detected := by
  refine ⟨?_, by decide, by decide, by decide⟩
  intro kw text hk hh hl
  unfold wbSearch wholeWordOccurrence
  rw [wbSearchAux_iff (pyLower kw).data hk hh hl (pyLower text).data none]
  simp only [prevAt_none]

/-- C8 witness: the word-boundary equivalence applied at the spec's concrete
keyword and text. -/
theorem c8_witness :
    wbSearch "vegan" "A vegan product" = true ↔
      wholeWordOccurrence "vegan" "A vegan product" :=
  c8_word_boundary_matching.1 "vegan" "A vegan product" (by decide) (by decide) (by decide)

/-! ## `src/storage/orm_models.py` and `src/storage/repository.py`

Timestamps (`datetime.now(timezone.utc)`) and UUIDs (`str(uuid.uuid4())`)
are modelled as explicit parameters: `now : Nat` is the wall clock and
`idGen` draws a fresh product id from the counter held in the state.
Surrogate `id` columns of evidence and quarantine rows are omitted: no code
reads them.  `ProductORM` declares no `product_category` attribute (only the
Alembic migration `c3a7f1b2d456` adds that column to the table), so the
SQLAlchemy declarative constructor rejects the `product_category=` keyword
that `upsert_product` passes on insert; the update branch sets it as a
plain (unmapped) instance attribute, modelled by the `product_category`
field below. -/

structure ProductRow where
  id : String
  brand_slug : String
  product_name : String
  product_url : String
  image_url_main : Option String := none
  image_urls_gallery : Option (List String) := none
  verification_status : String := "catalog_only"
  product_type_raw : Option String := none
  product_type_normalized : Option String := none
  gender_target : String := "unknown"
  hair_relevance_reason : Option String := none
  inci_ingredients : Option (List String) := none
  description : Option String := none
  usage_instructions : Option String := none
  benefits_claims : Option (List String) := none
  size_volume : Option String := none
  price : Option ℚ := none
  currency : Option String := none
  line_collection : Option String := none
  variants : Option (List JDict) := none
  product_labels : Option JDict := none
  confidence : ℚ := 0
  extraction_method : Option String := none
  extracted_at : Option Nat := none
  created_at : Nat
  updated_at : Nat
  product_category : Option String := none
  deriving DecidableEq, Repr

structure EvidenceRow where
  product_id : String
  field_name : String
  source_url : String
  evidence_locator : String
  raw_source_text : String
  extraction_method : String
  extracted_at : Nat
  deriving DecidableEq, Repr

structure QuarantineRow where
  product_id : String
  rejection_reason : String
  rejection_code : Option String := none
  review_status : String := "pending"
  reviewer_notes : Option String := none
  reviewed_at : Option Nat := none
  deriving DecidableEq, Repr

/-- `src/pipeline/report_generator.py` — `BrandReport`. -/
structure BrandReport where
  brand_slug : String
  discovered_total : Nat := 0
  hair_total : Nat := 0
  kits_total : Nat := 0
  non_hair_total : Nat := 0
  extracted_total : Nat := 0
  verified_inci_total : Nat := 0
  catalog_only_total : Nat := 0
  quarantined_total : Nat := 0
  errors : List String := []
  started_at : Nat := 0
  completed_at : Option Nat := none
  deriving DecidableEq, Repr

def BrandReport.verified_inci_rate (r : BrandReport) : ℚ :=
  if r.extracted_total = 0 then 0
  else (r.verified_inci_total : ℚ) / (r.extracted_total : ℚ)

def BrandReport.failure_rate (r : BrandReport) : ℚ :=
  if r.extracted_total = 0 then 0
  else (r.quarantined_total : ℚ) / (r.extracted_total : ℚ)

/-- Python banker's rounding of `q` to 4 decimal places, computed on the
numerator/denominator so that it kernel-reduces (`round(x, 4)`). -/
def roundHalfEven4 (q : ℚ) : Int :=
  let n := q.num * 10000
  let d := (q.den : Int)
  let f := Int.fdiv n d
  let r := n - f * d
  if 2 * r < d then f
  else if d < 2 * r then f + 1
  else if f % 2 = 0 then f else f + 1

def round4 (q : ℚ) : ℚ := mkRat (roundHalfEven4 q) 10000

/-- Python `f"{q:.2%}"` (used by the stop-the-line error entry): the rate
times 100, rounded half-even to 2 decimals, with a trailing percent sign. -/
def fmtPct (q : ℚ) : String :=
  let n := roundHalfEven4 q
  let frac := (n % 100).toNat
  toString (n / 100) ++ "." ++
    (if frac < 10 then "0" ++ toString frac else toString frac) ++ "%"

/-- `generate_coverage_stats` builds the dict passed to
`upsert_brand_coverage`; the `coverage_report` JSON holds
`report.to_dict()`, modelled by the report value that determines it. -/
structure CoverageStats where
  brand_slug : String
  discovered_total : Nat
  hair_total : Nat
  kits_total : Nat
  non_hair_total : Nat
  extracted_total : Nat
  verified_inci_total : Nat
  verified_inci_rate : ℚ
  catalog_only_total : Nat
  quarantined_total : Nat
  status : String
  blueprint_version : Nat
  coverage_report : BrandReport
  deriving DecidableEq, Repr

def generate_coverage_stats (report : BrandReport) : CoverageStats :=
  { brand_slug := report.brand_slug,
    discovered_total := report.discovered_total,
    hair_total := report.hair_total,
    kits_total := report.kits_total,
    non_hair_total := report.non_hair_total,
    extracted_total := report.extracted_total,
    verified_inci_total := report.verified_inci_total,
    verified_inci_rate := round4 report.verified_inci_rate,
    catalog_only_total := report.catalog_only_total,
    quarantined_total := report.quarantined_total,
    status := "done",
    blueprint_version := 1,
    coverage_report := report }

structure BrandCoverageRow where
  brand_slug : String
  discovered_total : Nat := 0
  hair_total : Nat := 0
  kits_total : Nat := 0
  non_hair_total : Nat := 0
  extracted_total : Nat := 0
  verified_inci_total : Nat := 0
  verified_inci_rate : ℚ := 0
  catalog_only_total : Nat := 0
  quarantined_total : Nat := 0
  status : String := "active"
  last_run : Option Nat := none
  blueprint_version : Nat := 1
  coverage_report : Option BrandReport := none
  deriving DecidableEq, Repr

structure RepoState where
  products : List ProductRow := []
  evidence : List EvidenceRow := []
  quarantine : List QuarantineRow := []
  coverage : List BrandCoverageRow := []
  nextId : Nat := 0
  deriving DecidableEq, Repr

/-- Mutating the first row matched by a SQLAlchemy `.first()` query. -/
def replaceFirst {α : Type} (p : α → Bool) (f : α → α) : List α → List α
  | [] => []
  | a :: rest => if p a then f a :: rest else a :: replaceFirst p f rest

/-- The attributes of the `ProductORM` declarative class (its mapped columns
and relationships) — note the absence of `product_category`. -/
def productORMColumns : List String :=
  ["id", "brand_slug", "product_name", "product_url", "image_url_main",
   "image_urls_gallery", "verification_status", "product_type_raw",
   "product_type_normalized", "gender_target", "hair_relevance_reason",
   "inci_ingredients", "description", "usage_instructions", "benefits_claims",
   "size_volume", "price", "currency", "line_collection", "variants",
   "product_labels", "confidence", "extraction_method", "extracted_at",
   "created_at", "updated_at", "evidence", "quarantine_detail"]

/-- The keyword arguments `upsert_product` passes to `ProductORM(...)`
(repository.py lines 48–72), in order. -/
def productInsertKwargs : List String :=
  ["brand_slug", "product_name", "product_url", "image_url_main",
   "image_urls_gallery", "verification_status", "product_type_raw",
   "product_type_normalized", "product_category", "gender_target",
   "hair_relevance_reason", "inci_ingredients", "description",
   "usage_instructions", "benefits_claims", "size_volume", "price",
   "currency", "line_collection", "variants", "confidence",
   "extraction_method", "extracted_at"]

/-- SQLAlchemy's declarative `__init__` raises
`TypeError: <k> is an invalid keyword argument for <cls>` at the first
keyword that is not an attribute of the class. -/
def invalidKwarg (attrs kwargs : List String) : Option String :=
  kwargs.find? (fun k => !(attrs.contains k))

/-- The update branch of `upsert_product` (repository.py lines 24–45). -/
def updateProductRow (now : Nat) (x : ProductExtraction) (qa : QAResult)
    (r : ProductRow) : ProductRow :=
  { r with
    product_name := x.product_name,
    image_url_main := x.image_url_main,
    image_urls_gallery :=
      if x.image_urls_gallery.isEmpty then none else some x.image_urls_gallery,
    verification_status := qa.status.value,
    product_type_raw := x.product_type_raw,
    product_type_normalized := x.product_type_normalized,
    product_category := x.product_category,
    gender_target := x.gender_target.value,
    hair_relevance_reason := some x.hair_relevance_reason,
    inci_ingredients := x.inci_ingredients,
    description := x.description,
    usage_instructions := x.usage_instructions,
    benefits_claims := x.benefits_claims,
    size_volume := x.size_volume,
    price := x.price,
    currency := x.currency,
    line_collection := x.line_collection,
    variants := x.variants,
    confidence := x.confidence,
    extraction_method := x.extraction_method,
    extracted_at := some x.extracted_at,
    updated_at := now }

/-- The insert branch row (repository.py lines 48–72); dead code at run
time, because the `ProductORM(...)` constructor raises first. -/
def newProductRow (pid : String) (now : Nat) (x : ProductExtraction)
    (qa : QAResult) : ProductRow :=
  { id := pid,
    brand_slug := x.brand_slug,
    product_name := x.product_name,
    product_url := x.product_url,
    image_url_main := x.image_url_main,
    image_urls_gallery :=
      if x.image_urls_gallery.isEmpty then none else some x.image_urls_gallery,
    verification_status := qa.status.value,
    product_type_raw := x.product_type_raw,
    product_type_normalized := x.product_type_normalized,
    product_category := x.product_category,
    gender_target := x.gender_target.value,
    hair_relevance_reason := some x.hair_relevance_reason,
    inci_ingredients := x.inci_ingredients,
    description := x.description,
    usage_instructions := x.usage_instructions,
    benefits_claims := x.benefits_claims,
    size_volume := x.size_volume,
    price := x.price,
    currency := x.currency,
    line_collection := x.line_collection,
    variants := x.variants,
    confidence := x.confidence,
    extraction_method := x.extraction_method,
    extracted_at := some x.extracted_at,
    created_at := now,
    updated_at := now }

def mkEvidenceRow (pid : String) (ev : Evidence) : EvidenceRow :=
  { product_id := pid,
    field_name := ev.field_name,
    source_url := ev.source_url,
    evidence_locator := ev.evidence_locator,
    raw_source_text := ev.raw_source_text,
    extraction_method := ev.extraction_method.value,
    extracted_at := ev.extracted_at }

/-- The quarantine upsert (repository.py lines 91–105).  The truthiness
guard guarantees `qa.rejection_reason` is a non-empty `some`, so `getD ""`
is exact. -/
def quarantineStep (product_id : String) (qa : QAResult)
    (quarantine : List QuarantineRow) : List QuarantineRow :=
  if (qa.status == QAStatus.quarantined) && truthyStr qa.rejection_reason then
    match quarantine.find? (fun q => q.product_id == product_id) with
    | some _ =>
      replaceFirst (fun q => q.product_id == product_id)
        (fun q =>
          { q with
            rejection_reason := qa.rejection_reason.getD "" }) quarantine
    | none =>
      quarantine ++
        [{ product_id := product_id,
           rejection_reason := qa.rejection_reason.getD "",
           rejection_code := qa.checks_failed.head? }]
  else quarantine

/-- `ProductRepository.upsert_product`.  The error value carries `str(e)` of
the `TypeError` the insert branch raises. -/
def upsert_product (now : Nat) (idGen : Nat → String) (x : ProductExtraction)
    (qa : QAResult) (db : RepoState) : Except String (String × RepoState) :=
  match db.products.find? (fun r => r.product_url == x.product_url) with
  | some existing =>
    .ok (existing.id,
      { db with
        products := replaceFirst (fun r => r.product_url == x.product_url)
          (updateProductRow now x qa) db.products,
        evidence := db.evidence ++ x.evidence.map (mkEvidenceRow existing.id),
        quarantine := quarantineStep existing.id qa db.quarantine })
  | none =>
    match invalidKwarg productORMColumns productInsertKwargs with
    | some k =>
      .error ("\x27" ++ k ++ "\x27 is an invalid keyword argument for ProductORM")
    | none =>
      .ok (idGen db.nextId,
        { db with
          products := db.products ++ [newProductRow (idGen db.nextId) now x qa],
          evidence :=
            db.evidence ++ x.evidence.map (mkEvidenceRow (idGen db.nextId)),
          quarantine := quarantineStep (idGen db.nextId) qa db.quarantine,
          nextId := db.nextId + 1 })

/-- `ProductRepository.upsert_brand_coverage`: every stats key is a mapped
column, the update branch overwrites them all (`brand_slug` is skipped but
equal by the filter), and `last_run` is touched on both branches. -/
def coverageRowOf (now : Nat) (stats : CoverageStats) : BrandCoverageRow :=
  { brand_slug := stats.brand_slug,
    discovered_total := stats.discovered_total,
    hair_total := stats.hair_total,
    kits_total := stats.kits_total,
    non_hair_total := stats.non_hair_total,
    extracted_total := stats.extracted_total,
    verified_inci_total := stats.verified_inci_total,
    verified_inci_rate := stats.verified_inci_rate,
    catalog_only_total := stats.catalog_only_total,
    quarantined_total := stats.quarantined_total,
    status := stats.status,
    last_run := some now,
    blueprint_version := stats.blueprint_version,
    coverage_report := some stats.coverage_report }

def upsert_brand_coverage (now : Nat) (stats : CoverageStats)
    (db : RepoState) : RepoState :=
  match db.coverage.find? (fun c => c.brand_slug == stats.brand_slug) with
  | some _ =>
    { db with
      coverage := replaceFirst (fun c => c.brand_slug == stats.brand_slug)
        (fun _ => coverageRowOf now stats) db.coverage }
  | none =>
    { db with coverage := db.coverage ++ [coverageRowOf now stats] }

/-! ## Claim C9 — `upsert_product` idempotence -/

lemma replaceFirst_cons_pos {α : Type} (p : α → Bool) (f : α → α) (a : α)
    (l : List α) (h : p a = true) : replaceFirst p f (a :: l) = f a :: l := by
  simp only [replaceFirst]
  rw [if_pos h]

lemma replaceFirst_cons_neg {α : Type} (p : α → Bool) (f : α → α) (a : α)
    (l : List α) (h : ¬ p a = true) :
    replaceFirst p f (a :: l) = a :: replaceFirst p f l := by
  simp only [replaceFirst]
  rw [if_neg h]

lemma replaceFirst_find? {α : Type} (p : α → Bool) (f : α → α)
    (hp : ∀ a, p (f a) = p a) :
    ∀ (l : List α) (r : α), l.find? p = some r →
      (replaceFirst p f l).find? p = some (f r) := by
  intro l
  induction l with
  | nil => intro r h; simp at h
  | cons a rest ih =>
    intro r h
    by_cases hpa : p a = true
    · rw [List.find?_cons_of_pos _ hpa] at h
      obtain rfl : a = r := Option.some.inj h
      rw [replaceFirst_cons_pos p f a rest hpa,
        List.find?_cons_of_pos _ (by rw [hp a]; exact hpa)]
    · rw [List.find?_cons_of_neg _ hpa] at h
      rw [replaceFirst_cons_neg p f a rest hpa, List.find?_cons_of_neg _ hpa]
      exact ih r h

lemma replaceFirst_idem {α : Type} (p : α → Bool) (f : α → α)
    (hp : ∀ a, p (f a) = p a) (hf : ∀ a, f (f a) = f a) :
    ∀ l : List α, replaceFirst p f (replaceFirst p f l) = replaceFirst p f l := by
  intro l
  induction l with
  | nil => rfl
  | cons a rest ih =>
    by_cases hpa : p a = true
    · rw [replaceFirst_cons_pos p f a rest hpa,
        replaceFirst_cons_pos p f (f a) rest (by rw [hp a]; exact hpa), hf a]
    · rw [replaceFirst_cons_neg p f a rest hpa,
        replaceFirst_cons_neg p f a _ hpa, ih]

lemma find?_cons_false {α : Type} (p : α → Bool) (a : α) (l : List α)
    (h : (a :: l).find? p = none) : p a = false ∧ l.find? p = none := by
  cases hpa : p a with
  | true =>
    rw [List.find?_cons_of_pos _ hpa] at h
    exact absurd h (by simp)
  | false =>
    rw [List.find?_cons_of_neg _ (by simp [hpa])] at h
    exact ⟨rfl, h⟩

lemma replaceFirst_append_none {α : Type} (p : α → Bool) (f : α → α) :
    ∀ (l m : List α), l.find? p = none →
      replaceFirst p f (l ++ m) = l ++ replaceFirst p f m := by
  intro l
  induction l with
  | nil => intro m _; rfl
  | cons a rest ih =>
    intro m h
    obtain ⟨hpa, hrest⟩ := find?_cons_false p a rest h
    show replaceFirst p f (a :: (rest ++ m)) = a :: (rest ++ replaceFirst p f m)
    rw [replaceFirst_cons_neg p f a _ (by simp [hpa]), ih m hrest]

lemma find?_append_none {α : Type} (p : α → Bool) :
    ∀ (l m : List α), l.find? p = none → (l ++ m).find? p = m.find? p := by
  intro l
  induction l with
  | nil => intro m _; rfl
  | cons a rest ih =>
    intro m h
    obtain ⟨hpa, hrest⟩ := find?_cons_false p a rest h
    show ((a :: (rest ++ m)).find? p) = m.find? p
    rw [List.find?_cons_of_neg _ (by simp [hpa])]
    exact ih m hrest

lemma quarantineStep_idem (pid : String) (qa : QAResult)
    (q : List QuarantineRow) :
    quarantineStep pid qa (quarantineStep pid qa q) = quarantineStep pid qa q := by
  by_cases hb : ((qa.status == QAStatus.quarantined) && truthyStr qa.rejection_reason) = true
  case neg =>
    have h1 : quarantineStep pid qa q = q := by
      unfold quarantineStep; rw [if_neg hb]
    rw [h1, h1]
  case pos =>
    cases hfq : q.find? (fun t => t.product_id == pid) with
    | some qq =>
      have h1 : quarantineStep pid qa q
          = replaceFirst (fun t => t.product_id == pid)
              (fun t =>
                { t with
                  rejection_reason := qa.rejection_reason.getD "" }) q := by
        unfold quarantineStep; rw [if_pos hb, hfq]
      have h2 := replaceFirst_find? (fun t => t.product_id == pid)
        (fun t =>
          { t with
            rejection_reason := qa.rejection_reason.getD "" })
        (fun a => rfl) q qq hfq
      rw [h1]
      unfold quarantineStep
      rw [if_pos hb, h2]
      exact replaceFirst_idem (fun t => t.product_id == pid)
        (fun t =>
          { t with
            rejection_reason := qa.rejection_reason.getD "" })
        (fun a => rfl) (fun a => rfl) q
    | none =>
      have h1 : quarantineStep pid qa q
          = q ++ [{ product_id := pid,
                    rejection_reason := qa.rejection_reason.getD "",
                    rejection_code := qa.checks_failed.head? }] := by
        unfold quarantineStep; rw [if_pos hb, hfq]
      rw [h1]
      unfold quarantineStep
      rw [if_pos hb, find?_append_none _ q _ hfq,
        List.find?_cons_of_pos _ (by simp),
        replaceFirst_append_none _ _ q _ hfq,
        replaceFirst_cons_pos _ _ _ _ (by simp)]

/-- C9: `upsert_product` is not even total, let alone idempotent — when no
row matches `product_url` it raises
`TypeError: \x27product_category\x27 is an invalid keyword argument for
ProductORM` (the ORM class lacks the column the insert branch passes), so a
fresh product is never persisted; on the update path (a matching row already
exists) a second identical call does leave the state unchanged except for
appending the extraction's evidence rows again. -/
theorem c9_upsert_product_behavior :
    (∀ (now : Nat) (idGen : Nat → String) (x : ProductExtraction)
       (qa : QAResult) (db : RepoState),
       db.products.find? (fun r => r.product_url == x.product_url) = none →
       upsert_product now idGen x qa db =
         .error "\x27product_category\x27 is an invalid keyword argument for ProductORM")
    ∧ (∀ (now : Nat) (idGen : Nat → String) (x : ProductExtraction)
       (qa : QAResult) (db db1 : RepoState) (pid : String),
       upsert_product now idGen x qa db = .ok (pid, db1) →
       upsert_product now idGen x qa db1 =
         .ok (pid,
           { db1 with
             evidence := db1.evidence ++ x.evidence.map (mkEvidenceRow pid) })) := by
  constructor
  · intro now idGen x qa db hfind
    unfold upsert_product
    rw [hfind,
      show invalidKwarg productORMColumns productInsertKwargs
        = some "product_category" from rfl]
    rfl
  · intro now idGen x qa db db1 pid h
    unfold upsert_product at h
    cases hfind : db.products.find? (fun r => r.product_url == x.product_url) with
    | none =>
      rw [hfind,
        show invalidKwarg productORMColumns productInsertKwargs
          = some "product_category" from rfl] at h
      exact absurd h (by simp)
    | some r =>
      rw [hfind] at h
      simp only [Except.ok.injEq, Prod.mk.injEq] at h
      obtain ⟨hpid, hdb⟩ := h
      subst hpid
      subst hdb
      unfold upsert_product
      have hf2 := replaceFirst_find?
        (fun t => t.product_url == x.product_url)
        (updateProductRow now x qa) (fun a => rfl) db.products r hfind
      dsimp only
      rw [hf2]
      dsimp only
      rw [show (updateProductRow now x qa r).id = r.id from rfl]
      have hP := replaceFirst_idem
        (fun t => t.product_url == x.product_url)
        (updateProductRow now x qa) (fun a => rfl) (fun a => rfl) db.products
      rw [hP, quarantineStep_idem]

def c9x : ProductExtraction :=
  { brand_slug := "b", product_name := "Shampoo X",
    product_url := "https://b.co/p/1",
    evidence := [{ field_name := "product_name",
                   source_url := "https://b.co/p/1",
                   evidence_locator := "h1",
                   raw_source_text := "Shampoo X",
                   extraction_method := .html_selector,
                   extracted_at := 7 }] }

def c9qa : QAResult :=
  { status := .quarantined, passed := false,
    checks_failed := ["missing_image"],
    rejection_reason := some "missing_image" }

def c9row : ProductRow :=
  { id := "p1", brand_slug := "b", product_name := "Old name",
    product_url := "https://b.co/p/1", created_at := 1, updated_at := 1 }

def c9db0 : RepoState := { products := [c9row] }

def c9db1 : RepoState :=
  { products := [updateProductRow 7 c9x c9qa c9row],
    evidence := c9x.evidence.map (mkEvidenceRow "p1"),
    quarantine := quarantineStep "p1" c9qa [] }

/-! ## `src/pipeline/coverage_engine.py`

The engine is modelled as constructed with `llm_client=None` (its default),
so the LLM-fallback guard at line 193 is false and that branch is skipped.
`browser.fetch_page` is an oracle `String → Except String Dom`: `.error e`
models the call raising an exception whose `str` is `e`, `.ok dom` a
successful fetch of the parsed page.  The blueprint dict is a structure
whose field defaults carry the `.get(..., default)` fallbacks; each entry of
`discovered_urls` is modelled by its `url_info.get("url", "")` string. -/

structure Blueprint where
  allowed_domains : List String := []
  inci_selectors : List String := []
  name_selectors : List String := []
  image_selectors : List String := []
  use_llm_fallback : Bool := false

def STOP_THE_LINE_THRESHOLD : ℚ := mkRat 1 2

/-- The parameter names of `extract_product_deterministic`
(deterministic.py lines 212–217). -/
def detSigParams : List String := ["html", "url", "inci_selectors", "name_selectors"]

/-- The keywords the call at coverage_engine.py lines 156–162 passes. -/
def detCallKwargs : List String :=
  ["html", "url", "inci_selectors", "name_selectors", "image_selectors"]

/-- `CoverageEngine._extract_product` (lines 135–231).  A fetch exception is
swallowed and yields `None` (lines 149–153); a successful fetch reaches the
`extract_product_deterministic(...)` call, which raises `TypeError` at the
unexpected `image_selectors=` keyword; the rest of the body (modelled by
`buildExtraction` over the deterministic extractor) is dead code. -/
def CE_extract_product (browser : Option (String → Except String Dom))
    (url brand_slug : String) (inci_selectors name_selectors : List String)
    (image_selectors : Option (List String)) (now : Nat) :
    Except String (Option ProductExtraction) :=
  match browser with
  | none => .ok none
  | some fetch =>
    match fetch url with
    | .error _ => .ok none
    | .ok dom =>
      match invalidKwarg detSigParams detCallKwargs with
      | some k =>
        .error ("extract_product_deterministic() got an unexpected keyword argument \x27"
          ++ k ++ "\x27")
      | none =>
        .ok (buildExtraction
          (extract_product_deterministic dom url (some inci_selectors)
            (some name_selectors) now)
          url brand_slug now)

/-- One step of the URL-classification loop (lines 47–59); `classify_url`
with no pattern never raises (`classify_url_none_eq`). -/
def classifyStep (acc : BrandReport × List String) (url : String) :
    BrandReport × List String :=
  let report := acc.1
  match classifyNoPattern url with
  | .kit => ({ report with kits_total := report.kits_total + 1 }, acc.2)
  | .non_hair =>
    ({ report with non_hair_total := report.non_hair_total + 1 }, acc.2)
  | .product =>
    ({ report with hair_total := report.hair_total + 1 }, acc.2 ++ [url])
  | .category => ({ report with hair_total := report.hair_total + 1 }, acc.2)
  | .other =>
    ({ report with non_hair_total := report.non_hair_total + 1 }, acc.2)

/-- Lines 70–77: the counter updates after a successful upsert. -/
def qaTally (report : BrandReport) (qa : QAResult) : BrandReport :=
  let report := { report with extracted_total := report.extracted_total + 1 }
  match qa.status with
  | .verified_inci =>
    { report with verified_inci_total := report.verified_inci_total + 1 }
  | .catalog_only =>
    { report with catalog_only_total := report.catalog_only_total + 1 }
  | .quarantined =>
    { report with quarantined_total := report.quarantined_total + 1 }

def stopMsg (report : BrandReport) : String :=
  "stop_the_line: failure_rate=" ++ fmtPct report.failure_rate
    ++ " after " ++ toString report.extracted_total ++ " products"

/-- The extraction loop of `process_brand` (lines 62–93): the whole body is
in one `try`, so both the `TypeError` out of `_extract_product` and any
exception out of `upsert_product` land in the `extraction_error` handler;
the stop-the-line check breaks out of the loop. -/
def processUrls (browser : Option (String → Except String Dom))
    (now : Nat) (idGen : Nat → String) (brand_slug : String) (bp : Blueprint) :
    List String → BrandReport → RepoState → BrandReport × RepoState
  | [], report, db => (report, db)
  | url :: rest, report, db =>
    match CE_extract_product browser url brand_slug bp.inci_selectors
        bp.name_selectors (some bp.image_selectors) now with
    | .error e =>
      processUrls browser now idGen brand_slug bp rest
        { report with
          errors := report.errors ++ ["extraction_error: " ++ url ++ ": " ++ e] }
        db
    | .ok none => processUrls browser now idGen brand_slug bp rest report db
    | .ok (some product_data) =>
      let qa := run_product_qa product_data bp.allowed_domains
      match upsert_product now idGen product_data qa db with
      | .error e =>
        processUrls browser now idGen brand_slug bp rest
          { report with
            errors := report.errors ++ ["extraction_error: " ++ url ++ ": " ++ e] }
          db
      | .ok (_, db1) =>
        let report1 := qaTally report qa
        if 5 ≤ report1.extracted_total
            ∧ STOP_THE_LINE_THRESHOLD < report1.failure_rate then
          ({ report1 with errors := report1.errors ++ [stopMsg report1] }, db1)
        else processUrls browser now idGen brand_slug bp rest report1 db1

def process_brand (browser : Option (String → Except String Dom))
    (now : Nat) (idGen : Nat → String) (brand_slug : String) (bp : Blueprint)
    (discovered_urls : List String) (db : RepoState) :
    BrandReport × RepoState :=
  let report0 : BrandReport :=
    { brand_slug := brand_slug, discovered_total := discovered_urls.length,
      started_at := now }
  let cls := discovered_urls.foldl classifyStep (report0, [])
  let res := processUrls browser now idGen brand_slug bp cls.2 cls.1 db
  let report := { res.1 with completed_at := some now }
  (report, upsert_brand_coverage now (generate_coverage_stats report) res.2)

/-! ## Claim C2 — the `image_selectors` keyword TypeError -/

/-- `str(e)` of the `TypeError` raised by the deterministic-extractor call. -/
def c2msg : String :=
  "extract_product_deterministic() got an unexpected keyword argument \x27image_selectors\x27"

lemma classifyStep_preserves (acc : BrandReport × List String) (u : String) :
    (classifyStep acc u).1.errors = acc.1.errors
    ∧ (classifyStep acc u).1.extracted_total = acc.1.extracted_total := by
  unfold classifyStep
  cases classifyNoPattern u <;> exact ⟨rfl, rfl⟩

lemma classifyFold_preserves :
    ∀ (urls : List String) (acc : BrandReport × List String),
      (urls.foldl classifyStep acc).1.errors = acc.1.errors
      ∧ (urls.foldl classifyStep acc).1.extracted_total = acc.1.extracted_total := by
  intro urls
  induction urls with
  | nil => intro acc; exact ⟨rfl, rfl⟩
  | cons u rest ih =>
    intro acc
    have h1 := classifyStep_preserves acc u
    have h2 := ih (classifyStep acc u)
    exact ⟨h2.1.trans h1.1, h2.2.trans h1.2⟩

lemma upsert_brand_coverage_rows (now : Nat) (stats : CoverageStats)
    (db : RepoState) :
    (upsert_brand_coverage now stats db).products = db.products
    ∧ (upsert_brand_coverage now stats db).evidence = db.evidence
    ∧ (upsert_brand_coverage now stats db).quarantine = db.quarantine := by
  unfold upsert_brand_coverage
  cases db.coverage.find? (fun c => c.brand_slug == stats.brand_slug) with
  | none => exact ⟨rfl, rfl, rfl⟩
  | some c => exact ⟨rfl, rfl, rfl⟩

lemma processUrls_typeerror (fetch : String → Except String Dom)
    (now : Nat) (idGen : Nat → String) (brand_slug : String) (bp : Blueprint) :
    ∀ (urls : List String) (report : BrandReport) (db : RepoState),
      processUrls (some fetch) now idGen brand_slug bp urls report db
        = ({ report with
             errors := report.errors ++ urls.filterMap (fun url =>
               match fetch url with
               | .ok _ => some ("extraction_error: " ++ url ++ ": " ++ c2msg)
               | .error _ => none) }, db) := by
  intro urls
  induction urls with
  | nil =>
    intro report db
    simp only [processUrls, List.filterMap_nil, List.append_nil]
  | cons url rest ih =>
    intro report db
    simp only [processUrls]
    cases hf : fetch url with
    | error e =>
      rw [show CE_extract_product (some fetch) url brand_slug bp.inci_selectors
            bp.name_selectors (some bp.image_selectors) now = .ok none from by
          unfold CE_extract_product
          dsimp only
          rw [hf]]
      dsimp only
      rw [ih report db]
      simp [hf]
    | ok dom =>
      rw [show CE_extract_product (some fetch) url brand_slug bp.inci_selectors
            bp.name_selectors (some bp.image_selectors) now = .error c2msg from by
          unfold CE_extract_product
          dsimp only
          rw [hf,
            show invalidKwarg detSigParams detCallKwargs
              = some "image_selectors" from rfl]
          rfl]
      dsimp only
      rw [ih { report with
               errors := report.errors
                 ++ ["extraction_error: " ++ url ++ ": " ++ c2msg] } db]
      simp [hf]

/-- C2: with a browser attached, every URL whose fetch succeeds makes
`_extract_product` raise
`TypeError: extract_product_deterministic() got an unexpected keyword
argument \x27image_selectors\x27`; consequently a brand run upserts nothing
(products, evidence and quarantine are untouched), `extracted_total` stays
0, and the errors list is exactly one `extraction_error` entry per
successfully fetched product URL. -/
theorem c2_image_selectors_typeerror :
    (∀ (fetch : String → Except String Dom) (now : Nat)
       (brand_slug url : String) (bp : Blueprint) (dom : Dom),
       fetch url = .ok dom →
       CE_extract_product (some fetch) url brand_slug bp.inci_selectors
         bp.name_selectors (some bp.image_selectors) now = .error c2msg)
    ∧ (∀ (fetch : String → Except String Dom) (now : Nat) (idGen : Nat → String)
       (brand_slug : String) (bp : Blueprint) (urls : List String)
       (db : RepoState),
       (process_brand (some fetch) now idGen brand_slug bp urls db).1.extracted_total = 0
       ∧ (process_brand (some fetch) now idGen brand_slug bp urls db).2.products = db.products
       ∧ (process_brand (some fetch) now idGen brand_slug bp urls db).2.evidence = db.evidence
       ∧ (process_brand (some fetch) now idGen brand_slug bp urls db).2.quarantine = db.quarantine
       ∧ (process_brand (some fetch) now idGen brand_slug bp urls db).1.errors
           = (urls.foldl classifyStep
               ({ brand_slug := brand_slug, discovered_total := urls.length,
                  started_at := now }, [])).2.filterMap (fun url =>
               match fetch url with
               | .ok _ => some ("extraction_error: " ++ url ++ ": " ++ c2msg)
               | .error _ => none)) := by
  constructor
  · intro fetch now brand_slug url bp dom hf
    unfold CE_extract_product
    dsimp only
    rw [hf,
      show invalidKwarg detSigParams detCallKwargs
        = some "image_selectors" from rfl]
    rfl
  · intro fetch now idGen brand_slug bp urls db
    unfold process_brand
    dsimp only
    rw [processUrls_typeerror fetch now idGen brand_slug bp _ _ db]
    have hcf := classifyFold_preserves urls
      ({ brand_slug := brand_slug, discovered_total := urls.length,
         started_at := now }, [])
    dsimp only
    refine ⟨?_, (upsert_brand_coverage_rows now _ db).1,
      (upsert_brand_coverage_rows now _ db).2.1,
      (upsert_brand_coverage_rows now _ db).2.2, ?_⟩
    · exact hcf.2
    · rw [hcf.1]
      simp

/-- C2 witness: the TypeError and the untouched run at a concrete browser,
blueprint and URL list. -/
theorem c2_witness :
    CE_extract_product (some (fun _ => Except.ok {})) "https://b.co/p/1" "b"
        ({} : Blueprint).inci_selectors ({} : Blueprint).name_selectors
        (some ({} : Blueprint).image_selectors) 0 = .error c2msg
    ∧ (process_brand (some (fun _ => Except.ok {})) 0 (fun n => toString n)
        "b" {} ["https://b.co/p/1"] {}).1.extracted_total = 0 :=
  ⟨c2_image_selectors_typeerror.1 (fun _ => Except.ok {}) 0 "b"
      "https://b.co/p/1" {} {} rfl,
   (c2_image_selectors_typeerror.2 (fun _ => Except.ok {}) 0
      (fun n => toString n) "b" {} ["https://b.co/p/1"] {}).1⟩

/-! ## Claim C10 — fetch exceptions -/

def c10fetch : String → Except String Dom :=
  fun u => if u = "https://b.co/p/1" then .error "Timeout 30000ms exceeded"
    else .ok {}

set_option maxHeartbeats 2000000 in
/-- C10 counterexample: in a two-URL brand run whose first product URL's
fetch raises, the errors list holds only the TypeError entry of the second
(successfully fetched) URL — the failed fetch leaves no
`extraction_error: <url>: <message>` entry at all, because
`_extract_product` swallows the exception and returns `None`. -/
theorem c10_counterexample :
    c10fetch "https://b.co/p/1" = .error "Timeout 30000ms exceeded"
    ∧ (process_brand (some c10fetch) 0 (fun n => toString n) "b" {}
        ["https://b.co/p/1", "https://b.co/p/2"] {}).1.errors
      = ["extraction_error: https://b.co/p/2: extract_product_deterministic() got an unexpected keyword argument \x27image_selectors\x27"] :=
  ⟨rfl, by decide⟩

/-- C10 (amended): a fetch exception inside `_extract_product` is swallowed
(lines 149–153 return `None`): the brand run does continue with the next
URL, but no `extraction_error` entry is appended for the failed fetch — the
loop proceeds exactly as if the URL had not been there. -/
theorem c10_amended (fetch : String → Except String Dom) (now : Nat)
    (idGen : Nat → String) (brand_slug : String) (bp : Blueprint)
    (url e : String) (rest : List String) (report : BrandReport)
    (db : RepoState) (hf : fetch url = .error e) :
    processUrls (some fetch) now idGen brand_slug bp (url :: rest) report db
      = processUrls (some fetch) now idGen brand_slug bp rest report db := by
  simp only [processUrls]
  rw [show CE_extract_product (some fetch) url brand_slug bp.inci_selectors
        bp.name_selectors (some bp.image_selectors) now = .ok none from by
      unfold CE_extract_product
      dsimp only
      rw [hf]]

/-- C10 witness: the amended statement at the concrete failing fetch. -/
theorem c10_witness :
    processUrls (some c10fetch) 0 (fun n => toString n) "b" {}
        ["https://b.co/p/1", "https://b.co/p/2"] { brand_slug := "b" } {}
      = processUrls (some c10fetch) 0 (fun n => toString n) "b" {}
        ["https://b.co/p/2"] { brand_slug := "b" } {} :=
  c10_amended c10fetch 0 (fun n => toString n) "b" {} "https://b.co/p/1"
    "Timeout 30000ms exceeded" ["https://b.co/p/2"] { brand_slug := "b" } {} rfl

/-! ## Claim C5 — stop-the-line -/

def c5urls : List String :=
  ["https://b.co/p/1", "https://b.co/p/2", "https://b.co/p/3",
   "https://b.co/p/4", "https://b.co/p/5", "https://b.co/p/6"]

set_option maxHeartbeats 4000000 in
/-- C5: the claimed stop-the-line run cannot happen — in a brand run over six
product URLs whose every fetch succeeds, each extraction raises the
`image_selectors` TypeError, so all six URLs are attempted and the run ends
with `extracted_total = 0`, `quarantined_total = 0`, six `extraction_error`
entries and no `stop_the_line` entry, instead of the claimed
`extracted_total = 5`, `quarantined_total = 5` halt before the sixth URL. -/
theorem c5_stop_the_line_unreachable :
    (process_brand (some (fun _ => Except.ok {})) 0 (fun n => toString n)
        "b" {} c5urls {}).1.extracted_total = 0
    ∧ (process_brand (some (fun _ => Except.ok {})) 0 (fun n => toString n)
        "b" {} c5urls {}).1.quarantined_total = 0
    ∧ (process_brand (some (fun _ => Except.ok {})) 0 (fun n => toString n)
        "b" {} c5urls {}).1.errors
      = ["extraction_error: https://b.co/p/1: " ++ c2msg,
         "extraction_error: https://b.co/p/2: " ++ c2msg,
         "extraction_error: https://b.co/p/3: " ++ c2msg,
         "extraction_error: https://b.co/p/4: " ++ c2msg,
         "extraction_error: https://b.co/p/5: " ++ c2msg,
         "extraction_error: https://b.co/p/6: " ++ c2msg] := by
  refine ⟨by decide, by decide, by decide⟩

/-- C9 witness: the two branches at concrete inputs — the insert branch on an
empty repository raises, and on a state whose single row already carries the
product URL a second call only re-appends the evidence rows. -/
theorem c9_witness :
    upsert_product 7 (fun n => toString n) c9x c9qa {} =
      .error "\x27product_category\x27 is an invalid keyword argument for ProductORM"
    ∧ upsert_product 7 (fun n => toString n) c9x c9qa c9db1 =
      .ok ("p1",
        { c9db1 with
          evidence := c9db1.evidence ++ c9x.evidence.map (mkEvidenceRow "p1") }) :=
  ⟨c9_upsert_product_behavior.1 7 (fun n => toString n) c9x c9qa {} (by decide),
   c9_upsert_product_behavior.2 7 (fun n => toString n) c9x c9qa c9db0 c9db1 "p1"
     (by rfl)⟩

end Haira
